import Mathlib

/-!
Shallow embedding of the expense-extraction engine of the `mahabudget`
repository (files `src/services/accountant.py` and `src/services/scanner.py`),
together with theorems settling the specification claims about it.

Strings are modelled as lists of characters (`Str`), restricted to the ASCII
text the engine actually processes; Python `int` is `Int`/`Nat`, Python `float`
is `ℚ` (with explicit IEEE-double rounding, `roundToDouble`, wherever the code
performs float arithmetic whose rounding can change an integer result).
Fallible Python code is modelled with `Except PyErr`.
-/

namespace Mahabudget

/- Mathlib seals the core rational arithmetic behind `irreducible`; reopening
it locally lets `decide` and `rfl` evaluate the model on concrete inputs. -/
attribute [local semireducible] Rat.add Rat.mul Rat.inv Rat.sub Rat.ofScientific

/-- Character strings, as lists of characters. -/
abbrev Str := List Char

/-- Coerce a Lean string literal to the `Str` model. -/
def sOf (s : String) : Str := s.data

/-- ASCII decimal digit test (Python `\d` on the ASCII texts modelled here). -/
def isDigitCh (c : Char) : Bool := 48 ≤ c.toNat && c.toNat ≤ 57

/-- Python `\s` / `str.strip` whitespace (ASCII fragment). -/
def isSpaceCh (c : Char) : Bool :=
  c = ' ' || c = '\t' || c = '\n' || c = '\r' || c = '\x0b' || c = '\x0c'

/-- Python regex `\w` word character (ASCII fragment). -/
def isWordCh (c : Char) : Bool :=
  isDigitCh c || (97 ≤ c.toNat && c.toNat ≤ 122) || (65 ≤ c.toNat && c.toNat ≤ 90) || c = '_'

/-- ASCII lowercasing of one character (Python `str.lower` on ASCII). -/
def lowerCh (c : Char) : Char :=
  if 65 ≤ c.toNat && c.toNat ≤ 90 then Char.ofNat (c.toNat + 32) else c

/-- Python `str.lower` on a string (ASCII fragment). -/
def lowerStr (s : Str) : Str := s.map lowerCh

/-- Python `str.strip()`: drop leading and trailing whitespace. -/
def pyStrip (s : Str) : Str :=
  ((s.dropWhile isSpaceCh).reverse.dropWhile isSpaceCh).reverse

/-- Does `pat` occur as a contiguous substring of `s` (Python `pat in s`)? -/
def containsSub (pat : Str) : Str → Bool
  | [] => pat.isEmpty
  | s@(_ :: rest) => pat.isPrefixOf s || containsSub pat rest

/-- Drop the literal `p` from the front of `s`, if it is a prefix. -/
def dropLit : Str → Str → Option Str
  | [], s => some s
  | _ :: _, [] => none
  | p :: ps, c :: cs => if p = c then dropLit ps cs else none

/-- Value of a string of decimal digits (Python `int` on a digit string;
leading zeros allowed). -/
def digitsToNat (ds : Str) : Nat :=
  ds.foldl (fun a c => 10 * a + (c.toNat - 48)) 0

/-- Decimal digit character of `n < 10`. -/
def digitCh (n : Nat) : Char := Char.ofNat (48 + n)

/-- Fuelled digit expansion of a natural number, most significant first.
The fuel only needs to exceed the number of decimal digits. -/
def natReprGo : Nat → Nat → Str
  | 0, _ => []
  | fuel + 1, n => if n < 10 then [digitCh n] else natReprGo fuel (n / 10) ++ [digitCh (n % 10)]

/-- Python `str` of a nonnegative integer: its decimal digit string. -/
def natRepr (n : Nat) : Str := natReprGo (n + 1) n

/-! ### IEEE-754 double model

The only places where Python float rounding can change an integer result are
the two `int(float(...) * 1000000)` computations (in `normalize_amount_string`
and `extract_amount_fallback`).  `roundToDouble` rounds a rational to the
nearest binary64 value (round-to-nearest, ties-to-even; the magnitudes involved
are far inside the normal range, so no subnormals or overflow arise). -/

/-- Fuelled base-2 logarithm of a natural number (floor). -/
def natLog2Go : Nat → Nat → Nat
  | 0, _ => 0
  | fuel + 1, n => if n ≥ 2 then natLog2Go fuel (n / 2) + 1 else 0

/-- Floor base-2 logarithm (0 for 0). -/
def natLog2 (n : Nat) : Nat := natLog2Go n n

/-- Floor exponent: the `e` with `2^e ≤ q < 2^(e+1)`, for `q > 0`. -/
def floorLog2 (q : ℚ) : ℤ :=
  let cand : ℤ := (natLog2 q.num.toNat : ℤ) - (natLog2 q.den : ℤ)
  if (2 : ℚ) ^ cand ≤ q then cand else cand - 1

/-- The value of one unit in the last mantissa place of `q`. -/
def rtdScale (q : ℚ) : ℚ := (2 : ℚ) ^ (floorLog2 q - 52)

/-- The 53-bit mantissa nearest to `q / rtdScale q`, ties to even. -/
def rtdMantissa (q : ℚ) : ℤ :=
  let m0 : ℚ := q / rtdScale q
  let m : ℤ := ⌊m0⌋
  let r : ℚ := m0 - (m : ℚ)
  if r < 1 / 2 then m
  else if 1 / 2 < r then m + 1
  else if m % 2 = 0 then m else m + 1

/-- Round a positive rational to the nearest 53-bit-mantissa binary value,
ties to even. -/
def roundPosToDouble (q : ℚ) : ℚ := (rtdMantissa q : ℚ) * rtdScale q

/-- Round a rational to the nearest binary64 value (normal range). -/
def roundToDouble (q : ℚ) : ℚ :=
  if q = 0 then 0 else if 0 < q then roundPosToDouble q else -roundPosToDouble (-q)

/-- Python `int()` truncation (toward zero) of a float value. -/
def pyTrunc (q : ℚ) : ℤ := if 0 ≤ q then ⌊q⌋ else -⌊-q⌋

/-! ### Emotion detector (`detect_emotion_from_text`, accountant.py:89-136) -/

/-- Emotion labels (`EmotionLabel` enum in models/expense.py). -/
inductive EmotionLabel where
  | MARAH | SEDIH | SENANG | LAPAR | STRESS | NETRAL
  deriving DecidableEq, Repr

/-- Expense categories (`ExpenseCategory` enum in models/expense.py). -/
inductive ExpenseCategory where
  | MAKANAN_MINUMAN | TRANSPORT | FASHION | HIBURAN | BELANJA | TAGIHAN | LAINNYA
  deriving DecidableEq, Repr

/-- Anger keyword vocabulary (accountant.py:97-99). -/
def angerWords : List Str :=
  [sOf ("anjing"), sOf ("anjir"), sOf ("bangsat"), sOf ("babi"), sOf ("kesel"),
   sOf ("kesal"), sOf ("emosi"), sOf ("bete"), sOf ("bt"), sOf ("marah"),
   sOf ("goblok"), sOf ("tolol"), sOf ("kampret"), sOf ("sialan"), sOf ("sial"),
   sOf ("nyebelin"), sOf ("sebel"), sOf ("jengkel")]

/-- Sadness keyword vocabulary (accountant.py:102-103). -/
def sadWords : List Str :=
  [sOf ("sedih"), sOf ("nyesel"), sOf ("menyesal"), sOf ("kecewa"), sOf ("galau"),
   sOf ("nangis"), sOf ("sakit hati"), sOf ("patah hati"), sOf ("gagal"),
   sOf ("rugi"), sOf ("boros")]

/-- Happiness keyword vocabulary (accountant.py:106-107). -/
def happyWords : List Str :=
  [sOf ("seneng"), sOf ("senang"), sOf ("happy"), sOf ("yey"), sOf ("yeay"),
   sOf ("hore"), sOf ("asik"), sOf ("mantap"), sOf ("mantul"), sOf ("keren"),
   sOf ("seru"), sOf ("bagus"), sOf ("puas"), sOf ("worth")]

/-- Stress keyword vocabulary (accountant.py:110-111). -/
def stressWords : List Str :=
  [sOf ("stress"), sOf ("stres"), sOf ("capek"), sOf ("cape"), sOf ("lelah"),
   sOf ("pusing"), sOf ("mumet"), sOf ("ribet"), sOf ("deadline"), sOf ("lembur"),
   sOf ("overtime"), sOf ("sibuk")]

/-- Hunger keyword vocabulary (accountant.py:114). -/
def hungerWords : List Str :=
  [sOf ("lapar"), sOf ("laper"), sOf ("hungry"), sOf ("pengen makan"), sOf ("kelaparan")]

/-- Does any word of the vocabulary occur in the text (`word in message_lower`)? -/
def anyWordIn (words : List Str) (s : Str) : Bool :=
  words.any (fun w => containsSub w s)

/-- `detect_emotion_from_text`: keyword classifier with fixed priority order
anger, sadness, stress, happiness, hunger; neutral otherwise. -/
def detect_emotion_from_text (message : Str) : EmotionLabel × ℚ :=
  let ml := lowerStr message
  if anyWordIn angerWords ml then (.MARAH, -(6 / 10))
  else if anyWordIn sadWords ml then (.SEDIH, -(5 / 10))
  else if anyWordIn stressWords ml then (.STRESS, -(4 / 10))
  else if anyWordIn happyWords ml then (.SENANG, 7 / 10)
  else if anyWordIn hungerWords ml then (.LAPAR, 1 / 10)
  else (.NETRAL, 0)

/-! ### Money indicator and expense gate (accountant.py:20-72) -/

/-- Is some decimal digit followed (after optional whitespace) by the literal
`lit`?  This is the match-existence test of the regexes `\d+\s*[kr]`,
`\d+\s*rb`, ..., where `lit` has no word-boundary requirement. -/
def existsDigitThenLit (lits : List Str) : Str → Bool
  | [] => false
  | c :: rest =>
    (isDigitCh c &&
      (lits.any (fun l => (dropLit l (rest.dropWhile isSpaceCh)).isSome)))
    || existsDigitThenLit lits rest

/-- Does the text contain four or more consecutive decimal digits (`\d{4,}`)? -/
def exists4Digits : Str → Bool
  | [] => false
  | c :: rest =>
    (isDigitCh c && ((c :: rest).takeWhile isDigitCh).length ≥ 4) || exists4Digits rest

/-- `has_money_indicator`: any of the money/expense regexes matches. -/
def has_money_indicator (message : Str) : Bool :=
  let m := lowerStr message
  existsDigitThenLit [[ 'k' ], [ 'r' ]] m ||
  existsDigitThenLit [sOf ("rb")] m ||
  existsDigitThenLit [sOf ("ribu")] m ||
  existsDigitThenLit [sOf ("jt")] m ||
  existsDigitThenLit [sOf ("juta")] m ||
  exists4Digits m ||
  anyWordIn [sOf ("beli"), sOf ("bayar"), sOf ("abis"), sOf ("habis"),
             sOf ("keluar"), sOf ("spend")] m ||
  anyWordIn [sOf ("harga"), sOf ("biaya"), sOf ("ongkir"), sOf ("ongkos")] m

/-- Word-boundary test after a word character: the rest of the string must be
empty or start with a non-word character (Python `\b`). -/
def boundaryOk : Str → Bool
  | [] => true
  | c :: _ => !isWordCh c

/-- Does the text start with one of the alternatives, followed by a word
boundary (regex `^(w1|w2|...)\b`)? -/
def startsWithAnyWordB (words : List Str) (s : Str) : Bool :=
  words.any (fun w => (dropLit w s).elim false boundaryOk)

/-- Does the text start with one of the alternatives (regex `^(w1|w2|...)`)? -/
def startsWithAny (words : List Str) (s : Str) : Bool :=
  words.any (fun w => w.isPrefixOf s)

/-- Pattern `^(w1|w2|...)\s*(s1|s2|...)?$`: one of the head words, optional
whitespace, then optionally one of the tail words, then end of string. -/
def headThenOptTail (heads tails : List Str) (s : Str) : Bool :=
  heads.any (fun w =>
    match dropLit w s with
    | none => false
    | some r =>
      let r' := r.dropWhile isSpaceCh
      r'.isEmpty || tails.any (fun t => t = r'))

/-- The ordered casual-chat patterns of `has_expense_pattern`
(accountant.py:32-43), as match-existence tests against the lowercased,
stripped message.  All but the last three alternatives of pattern 8 and
pattern 10 are anchored at the start. -/
def casualMatch (s : Str) : Bool :=
  startsWithAnyWordB [sOf ("hai"), sOf ("halo"), sOf ("hi"), sOf ("hey"), sOf ("yo")] s ||
  startsWithAnyWordB [sOf ("oke"), sOf ("ok"), sOf ("siap"), sOf ("mantap"), sOf ("nice"),
                      sOf ("wkwk"), sOf ("haha"), sOf ("lol"), sOf ("wkwkwk")] s ||
  startsWithAny [sOf ("makasih"), sOf ("thanks"), sOf ("thx"), sOf ("terima kasih")] s ||
  startsWithAny [sOf ("iya"), sOf ("yoi"), sOf ("yup"), sOf ("yes"), sOf ("ya"),
                 sOf ("bener"), sOf ("betul")] s ||
  startsWithAny [sOf ("ga"), sOf ("gak"), sOf ("nggak"), sOf ("tidak"), sOf ("no"),
                 sOf ("nope")] s ||
  startsWithAny [sOf ("kenyang"), sOf ("puas"), sOf ("enak"), sOf ("mantul"),
                 sOf ("mantep")] s ||
  headThenOptTail [sOf ("mahal"), sOf ("murah")]
                  [sOf ("bgt"), sOf ("banget"), sOf ("amat")] s ||
  (startsWithAny [sOf ("gimana")] s || containsSub (sOf ("bagaimana")) s ||
   containsSub (sOf ("apa kabar")) s) ||
  headThenOptTail [sOf ("sedih"), sOf ("seneng"), sOf ("senang"), sOf ("kesel"),
                   sOf ("marah")] [sOf ("bgt"), sOf ("banget")] s ||
  containsSub (sOf ("mana ada")) s

/-- `has_expense_pattern`: the expense-likelihood gate.  Both the casual and
the non-casual branch of the source return `has_money_indicator` on the
lowercased stripped message. -/
def has_expense_pattern (message : Str) : Bool :=
  let ml := pyStrip (lowerStr message)
  if ml.length < 5 then false
  else if casualMatch ml then has_money_indicator ml
  else has_money_indicator ml

/-! ### Amount normalizer (`normalize_amount_string`, accountant.py:167-205)

Each regex substitution pass is a left-to-right scanner.  `re.sub` finds the
leftmost match, emits the replacement, and resumes scanning in the original
text right after the match; on failure at a position it advances one
character.  Since every pattern starts with `(\d+)` and continues with
non-digit material, the greedy maximal digit run is the only candidate
match at a given start position, and if it fails, every start inside the same
digit run fails the same way, so advancing one character is exact.  The
scanners are fuelled; fuel bounded below by the text length is sufficient,
because every step consumes at least one input character. -/

/-- One substitution pass for `(\d+)\s*SUF\b` with replacement
`str(int(digits) * mult)` (the `k`, `rb`, `ribu`, `jt`, `juta` rules). -/
def subSuffixGo (suf : Str) (mult : Nat) : Nat → Str → Str
  | 0, s => s
  | _ + 1, [] => []
  | fuel + 1, c :: rest =>
    if isDigitCh c then
      let ds := (c :: rest).takeWhile isDigitCh
      let r1 := (c :: rest).dropWhile isDigitCh
      match dropLit suf (r1.dropWhile isSpaceCh) with
      | some r3 =>
        if boundaryOk r3 then natRepr (digitsToNat ds * mult) ++ subSuffixGo suf mult fuel r3
        else c :: subSuffixGo suf mult fuel rest
      | none => c :: subSuffixGo suf mult fuel rest
    else c :: subSuffixGo suf mult fuel rest

/-- Substitution pass `(\d+)\s*SUF\b` over a whole string. -/
def subSuffix (suf : Str) (mult : Nat) (s : Str) : Str :=
  subSuffixGo suf mult s.length s

/-- The integer Python computes for `int(float("0." + ds) * 1000000)`:
the decimal fraction is rounded to a double, multiplied by `10^6` with
another double rounding, then truncated toward zero. -/
def decMillionAddend (ds : Str) : ℤ :=
  pyTrunc (roundToDouble (roundToDouble ((digitsToNat ds : ℚ) / 10 ^ ds.length) * 1000000))

/-- Replacement value of `replace_million_decimal` (accountant.py:172-184):
`whole * 1000000 + int(float("0." + frac) * 1000000)`. -/
def replaceMillionDecimalVal (whole frac : Str) : ℤ :=
  (digitsToNat whole : ℤ) * 1000000 + decMillionAddend frac

/-- One substitution pass for `(\d+)[.,](\d+)\s*SUF\b` with replacement
`replace_million_decimal` (the decimal `jt` / `juta` rules). -/
def subDecMillionGo (suf : Str) : Nat → Str → Str
  | 0, s => s
  | _ + 1, [] => []
  | fuel + 1, c :: rest =>
    if isDigitCh c then
      let ds1 := (c :: rest).takeWhile isDigitCh
      match (c :: rest).dropWhile isDigitCh with
      | sep :: r1 =>
        if sep = '.' || sep = ',' then
          let ds2 := r1.takeWhile isDigitCh
          if ds2.isEmpty then c :: subDecMillionGo suf fuel rest
          else
            match dropLit suf ((r1.dropWhile isDigitCh).dropWhile isSpaceCh) with
            | some r4 =>
              if boundaryOk r4 then
                natRepr (replaceMillionDecimalVal ds1 ds2).toNat ++ subDecMillionGo suf fuel r4
              else c :: subDecMillionGo suf fuel rest
            | none => c :: subDecMillionGo suf fuel rest
        else c :: subDecMillionGo suf fuel rest
      | [] => c :: subDecMillionGo suf fuel rest
    else c :: subDecMillionGo suf fuel rest

/-- Substitution pass `(\d+)[.,](\d+)\s*SUF\b` over a whole string. -/
def subDecMillion (suf : Str) (s : Str) : Str :=
  subDecMillionGo suf s.length s

/-- `normalize_amount_string`: lowercase the text, then apply the seven
substitution passes in source order (k, rb, ribu, decimal-jt, decimal-juta,
jt, juta). -/
def normalize_amount_string (text : Str) : Str :=
  let t0 := lowerStr text
  let t1 := subSuffix [ 'k' ] 1000 t0
  let t2 := subSuffix (sOf ("rb")) 1000 t1
  let t3 := subSuffix (sOf ("ribu")) 1000 t2
  let t4 := subDecMillion (sOf ("jt")) t3
  let t5 := subDecMillion (sOf ("juta")) t4
  let t6 := subSuffix (sOf ("jt")) 1000000 t5
  subSuffix (sOf ("juta")) 1000000 t6

/-! ### Fallback amount extractor (`extract_amount_fallback`, accountant.py:208-241) -/

/-- First match of `(\d+)\s*SUF\b`, returning `int(digits) * mult`. -/
def findSuffixAmt (suf : Str) (mult : Nat) : Str → Option ℤ
  | [] => none
  | c :: rest =>
    if isDigitCh c then
      let ds := (c :: rest).takeWhile isDigitCh
      let r1 := (c :: rest).dropWhile isDigitCh
      match dropLit suf (r1.dropWhile isSpaceCh) with
      | some r3 =>
        if boundaryOk r3 then some ((digitsToNat ds * mult : Nat) : ℤ)
        else findSuffixAmt suf mult rest
      | none => findSuffixAmt suf mult rest
    else findSuffixAmt suf mult rest

/-- The integer Python computes for `int(float(f"{g1}.{g2}") * 1000000)`. -/
def decMillionFallbackVal (g1 g2 : Str) : ℤ :=
  pyTrunc (roundToDouble (roundToDouble
    ((digitsToNat g1 : ℚ) + (digitsToNat g2 : ℚ) / 10 ^ g2.length) * 1000000))

/-- First match of `(\d+)[.,](\d+)\s*(jt|juta)\b`, returning the
float-multiplied value. -/
def findDecMillion : Str → Option ℤ
  | [] => none
  | c :: rest =>
    if isDigitCh c then
      let ds1 := (c :: rest).takeWhile isDigitCh
      match (c :: rest).dropWhile isDigitCh with
      | sep :: r1 =>
        if sep = '.' || sep = ',' then
          let ds2 := r1.takeWhile isDigitCh
          if ds2.isEmpty then findDecMillion rest
          else
            let r2 := (r1.dropWhile isDigitCh).dropWhile isSpaceCh
            if ([sOf ("jt"), sOf ("juta")].any
                  (fun l => (dropLit l r2).elim false boundaryOk)) then
              some (decMillionFallbackVal ds1 ds2)
            else findDecMillion rest
        else findDecMillion rest
      | [] => findDecMillion rest
    else findDecMillion rest

/-- First match of `(\d{4,})`: the first maximal run of at least four digits,
as an integer. -/
def find4Plus : Str → Option ℤ
  | [] => none
  | c :: rest =>
    if isDigitCh c then
      let ds := (c :: rest).takeWhile isDigitCh
      if ds.length ≥ 4 then some ((digitsToNat ds : Nat) : ℤ) else find4Plus rest
    else find4Plus rest

/-- `extract_amount_fallback`: suffix-qualified amounts in dictionary order
(k, rb, ribu, jt, juta), then decimal millions, then a bare 4+ digit run. -/
def extract_amount_fallback (text : Str) : Option ℤ :=
  let t := lowerStr text
  match findSuffixAmt [ 'k' ] 1000 t with
  | some v => some v
  | none =>
  match findSuffixAmt (sOf ("rb")) 1000 t with
  | some v => some v
  | none =>
  match findSuffixAmt (sOf ("ribu")) 1000 t with
  | some v => some v
  | none =>
  match findSuffixAmt (sOf ("jt")) 1000000 t with
  | some v => some v
  | none =>
  match findSuffixAmt (sOf ("juta")) 1000000 t with
  | some v => some v
  | none =>
  match findDecMillion t with
  | some v => some v
  | none => find4Plus t

/-! ### JSON values and `json.loads` -/

/-- Python objects produced by `json.loads`: `None`, `bool`, `int`, `float`,
`str`, `list`, `dict` (string keys). -/
inductive JVal where
  | jnull : JVal
  | jbool : Bool → JVal
  | jint : ℤ → JVal
  | jfloat : ℚ → JVal
  | jstr : Str → JVal
  | jarr : List JVal → JVal
  | jobj : List (Str × JVal) → JVal
  deriving Repr

/-- Python truthiness of a JSON value (`if not amount`, `if fallback_amt`). -/
def truthyJ : JVal → Bool
  | .jnull => false
  | .jbool b => b
  | .jint n => n ≠ 0
  | .jfloat q => q ≠ 0
  | .jstr s => !s.isEmpty
  | .jarr l => !l.isEmpty
  | .jobj l => !l.isEmpty

/-- Python `dict` lookup: the value stored for `key` (last write wins). -/
def jGet (kvs : List (Str × JVal)) (key : Str) : Option JVal :=
  (kvs.reverse.find? (fun kv => kv.1 = key)).map (·.2)

/-- Python `dict.get(key, default)`. -/
def jGetD (kvs : List (Str × JVal)) (key : Str) (dflt : JVal) : JVal :=
  (jGet kvs key).getD dflt

/-- JSON whitespace (the characters `json.loads` skips between tokens). -/
def isJsonWs (c : Char) : Bool := c = ' ' || c = '\t' || c = '\n' || c = '\r'

/-- Parse the body of a JSON string literal after the opening quote, returning
the decoded characters and the rest after the closing quote. -/
def jparseStr : Nat → Str → Option (Str × Str)
  | 0, _ => none
  | _ + 1, [] => none
  | fuel + 1, c :: rest =>
    if c = '"' then some ([], rest)
    else if c = '\\' then
      match rest with
      | [] => none
      | e :: rest' =>
        let dec : Option (Char × Str) :=
          if e = '"' then some ('"', rest')
          else if e = '\\' then some ('\\', rest')
          else if e = '/' then some ('/', rest')
          else if e = 'b' then some ('\x08', rest')
          else if e = 'f' then some ('\x0c', rest')
          else if e = 'n' then some ('\n', rest')
          else if e = 'r' then some ('\r', rest')
          else if e = 't' then some ('\t', rest')
          else if e = 'u' then
            match rest' with
            | h1 :: h2 :: h3 :: h4 :: r =>
              let hv : Char → Option Nat := fun h =>
                if isDigitCh h then some (h.toNat - 48)
                else if 'a' ≤ h && h ≤ 'f' then some (h.toNat - 87)
                else if 'A' ≤ h && h ≤ 'F' then some (h.toNat - 55)
                else none
              match hv h1, hv h2, hv h3, hv h4 with
              | some a, some b, some c', some d =>
                some (Char.ofNat (4096 * a + 256 * b + 16 * c' + d), r)
              | _, _, _, _ => none
            | _ => none
          else none
        match dec with
        | some (ch, r) => (jparseStr fuel r).map (fun p => (ch :: p.1, p.2))
        | none => none
    else if c.toNat < 32 then none
    else (jparseStr fuel rest).map (fun p => (c :: p.1, p.2))

/-- Parse a JSON number token.  Returns `jint` when there is no fraction or
exponent, `jfloat` otherwise (the decimal value taken exactly; all concrete
inputs used below keep it representable). -/
def jparseNum (s : Str) : Option (JVal × Str) :=
  let (neg, s1) := match s with
    | '-' :: r => (true, r)
    | _ => (false, s)
  let intDs := s1.takeWhile isDigitCh
  let afterInt := s1.dropWhile isDigitCh
  if intDs.isEmpty then none
  else if intDs.length > 1 && intDs.headI = '0' then none
  else
    let (fracDs, afterFrac) : Str × Str := match afterInt with
      | '.' :: r => (r.takeWhile isDigitCh, r.dropWhile isDigitCh)
      | _ => ([], afterInt)
    let hasDot : Bool := match afterInt with | '.' :: _ => true | _ => false
    if hasDot && fracDs.isEmpty then none
    else
      let (hasExp, expNeg, expDs, rest) : Bool × Bool × Str × Str :=
        match afterFrac with
        | e :: r =>
          if e = 'e' || e = 'E' then
            match r with
            | '-' :: r' => (true, true, r'.takeWhile isDigitCh, r'.dropWhile isDigitCh)
            | '+' :: r' => (true, false, r'.takeWhile isDigitCh, r'.dropWhile isDigitCh)
            | _ => (true, false, r.takeWhile isDigitCh, r.dropWhile isDigitCh)
          else (false, false, [], afterFrac)
        | [] => (false, false, [], afterFrac)
      if hasExp && expDs.isEmpty then none
      else
        let mag : ℚ :=
          ((digitsToNat intDs : ℚ) + (digitsToNat fracDs : ℚ) / 10 ^ fracDs.length) *
            (if hasExp then
              (if expNeg then (10 : ℚ) ^ (-(digitsToNat expDs : ℤ))
               else (10 : ℚ) ^ (digitsToNat expDs : ℤ))
             else 1)
        let v : ℚ := if neg then -mag else mag
        if hasDot || hasExp then some (.jfloat v, rest)
        else some (.jint (if neg then -(digitsToNat intDs : ℤ) else (digitsToNat intDs : ℤ)), rest)

mutual

/-- Parse one JSON value (fuelled recursive descent).  `jparseElems` parses
the tail of an array after its first element, `jparseMembers` the tail of an
object after its first member. -/
def jparseVal : Nat → Str → Option (JVal × Str)
  | 0, _ => none
  | fuel + 1, s =>
    match s.dropWhile isJsonWs with
    | [] => none
    | c :: rest =>
      if c = '{' then
        match rest.dropWhile isJsonWs with
        | '}' :: r => some (.jobj [], r)
        | '"' :: r =>
          match jparseStr (fuel + 1) r with
          | none => none
          | some (key, afterKey) =>
            match afterKey.dropWhile isJsonWs with
            | ':' :: afterColon =>
              match jparseVal fuel afterColon with
              | none => none
              | some (v, afterV) => jparseMembers fuel [(key, v)] afterV
            | _ => none
        | _ => none
      else if c = '[' then
        match rest.dropWhile isJsonWs with
        | ']' :: r => some (.jarr [], r)
        | _ =>
          match jparseVal fuel rest with
          | none => none
          | some (v, afterV) => jparseElems fuel [v] afterV
      else if c = '"' then
        (jparseStr (fuel + 1) rest).map (fun p => (.jstr p.1, p.2))
      else if c = 't' then
        (dropLit (sOf ("rue")) rest).map (fun r => (.jbool true, r))
      else if c = 'f' then
        (dropLit (sOf ("alse")) rest).map (fun r => (.jbool false, r))
      else if c = 'n' then
        (dropLit (sOf ("ull")) rest).map (fun r => (.jnull, r))
      else jparseNum (c :: rest)

/-- Parse `, v , v ... ]` after the elements in `acc` (reversed at the end). -/
def jparseElems : Nat → List JVal → Str → Option (JVal × Str)
  | 0, _, _ => none
  | fuel + 1, acc, s =>
    match s.dropWhile isJsonWs with
    | ']' :: r => some (.jarr acc.reverse, r)
    | ',' :: r =>
      match jparseVal fuel r with
      | none => none
      | some (v, afterV) => jparseElems fuel (v :: acc) afterV
    | _ => none

/-- Parse `, "k": v ... }` after the members in `acc` (reversed at the end). -/
def jparseMembers : Nat → List (Str × JVal) → Str → Option (JVal × Str)
  | 0, _, _ => none
  | fuel + 1, acc, s =>
    match s.dropWhile isJsonWs with
    | '}' :: r => some (.jobj acc.reverse, r)
    | ',' :: r =>
      match r.dropWhile isJsonWs with
      | '"' :: afterQuote =>
        match jparseStr (fuel + 1) afterQuote with
        | none => none
        | some (key, afterKey) =>
          match afterKey.dropWhile isJsonWs with
          | ':' :: afterColon =>
            match jparseVal fuel afterColon with
            | none => none
            | some (v, afterV) => jparseMembers fuel ((key, v) :: acc) afterV
          | _ => none
      | _ => none
    | _ => none

end

/-- Python `json.loads`: parse one value, allow surrounding whitespace,
reject trailing data. -/
def jsonLoads (s : Str) : Option JVal :=
  match jparseVal (s.length + 1) s with
  | none => none
  | some (v, rest) => if (rest.dropWhile isJsonWs).isEmpty then some v else none

/-! ### Response parser (`parse_ai_response`, accountant.py:244-268) -/

/-- Split `s` at the first occurrence of `c`: `s = a ++ c :: b` with `c ∉ a`. -/
def splitFirst (c : Char) : Str → Option (Str × Str)
  | [] => none
  | x :: xs =>
    if x = c then some ([], xs)
    else (splitFirst c xs).map (fun p => (x :: p.1, p.2))

/-- Match of the greedy regex `\[[\s\S]*\]`: the span from the first `[` to
the last `]`, when the latter comes after the former. -/
def arrayMatch (s : Str) : Option Str :=
  match splitFirst '[' s with
  | none => none
  | some (_, b) =>
    match splitFirst ']' b.reverse with
    | none => none
    | some (_, rb) => some ('[' :: rb.reverse ++ [ ']' ])

/-- Match of the regex `\{[^}]+\}`: the first `{` followed by at least one
non-`}` character and then a `}`. -/
def objMatch : Str → Option Str
  | [] => none
  | c :: rest =>
    if c = '{' then
      let run := rest.takeWhile (fun x => x ≠ '}')
      if !run.isEmpty && !(rest.dropWhile (fun x => x ≠ '}')).isEmpty
      then some ('{' :: run ++ [ '}' ])
      else objMatch rest
    else objMatch rest

/-- Second recovery stage of `parse_ai_response`: a single brace span wrapped
into a one-element list when it parses as an object, else the empty list. -/
def parseObjFallback (t : Str) : List JVal :=
  match objMatch t with
  | some sub =>
    match jsonLoads sub with
    | some (.jobj kvs) => [.jobj kvs]
    | _ => []
  | none => []

/-- `parse_ai_response`: recover a candidate list from the raw response.
The greedy array span is tried first; failing that, a single brace span is
wrapped in a one-element list; failing that, the empty list. -/
def parse_ai_response (response_text : Str) : List JVal :=
  match arrayMatch (pyStrip response_text) with
  | some sub =>
    match jsonLoads sub with
    | some (.jarr l) => l
    | _ => parseObjFallback (pyStrip response_text)
  | none => parseObjFallback (pyStrip response_text)

/-! ### Category and emotion mapping (accountant.py:271-315) -/

/-- `map_category`: case-insensitive synonym lookup, default `Lainnya`. -/
def map_category (category : Str) : ExpenseCategory :=
  let tbl : List (Str × ExpenseCategory) :=
    [(sOf ("makanan & minuman"), .MAKANAN_MINUMAN), (sOf ("makanan"), .MAKANAN_MINUMAN),
     (sOf ("minuman"), .MAKANAN_MINUMAN), (sOf ("food"), .MAKANAN_MINUMAN),
     (sOf ("transport"), .TRANSPORT), (sOf ("transportasi"), .TRANSPORT),
     (sOf ("fashion"), .FASHION), (sOf ("pakaian"), .FASHION),
     (sOf ("hiburan"), .HIBURAN), (sOf ("entertainment"), .HIBURAN),
     (sOf ("belanja"), .BELANJA), (sOf ("shopping"), .BELANJA),
     (sOf ("tagihan"), .TAGIHAN), (sOf ("bill"), .TAGIHAN),
     (sOf ("lainnya"), .LAINNYA), (sOf ("other"), .LAINNYA)]
  ((tbl.find? (fun kv => kv.1 = lowerStr category)).map (·.2)).getD .LAINNYA

/-- `map_emotion`: case-insensitive synonym lookup, default `Netral`. -/
def map_emotion (emotion : Str) : EmotionLabel :=
  let tbl : List (Str × EmotionLabel) :=
    [(sOf ("marah"), .MARAH), (sOf ("angry"), .MARAH), (sOf ("kesel"), .MARAH),
     (sOf ("sedih"), .SEDIH), (sOf ("sad"), .SEDIH), (sOf ("nyesel"), .SEDIH),
     (sOf ("senang"), .SENANG), (sOf ("happy"), .SENANG), (sOf ("bahagia"), .SENANG),
     (sOf ("lapar"), .LAPAR), (sOf ("hungry"), .LAPAR),
     (sOf ("stress"), .STRESS), (sOf ("stressed"), .STRESS), (sOf ("capek"), .STRESS),
     (sOf ("netral"), .NETRAL), (sOf ("neutral"), .NETRAL), (sOf ("biasa"), .NETRAL)]
  ((tbl.find? (fun kv => kv.1 = lowerStr emotion)).map (·.2)).getD .NETRAL

/-! ### Python coercions and the `ExpenseExtraction` model -/

/-- Exceptions relevant to the modelled paths.  All of them are subclasses of
`Exception`, so all are caught by the catch-all handler of
`extract_multiple_expenses`; only `valueError` and `typeError` are caught by
the per-item handler of the receipt parser. -/
inductive PyErr where
  | valueError | typeError | attributeError
  deriving DecidableEq, Repr

/-- Parse a Python `int()` string argument: optional whitespace, optional
sign, one or more digits, optional whitespace. -/
def pyIntOfStr (s : Str) : Except PyErr ℤ :=
  let s1 := s.dropWhile isSpaceCh
  let (neg, s2) : Bool × Str := match s1 with
    | '-' :: r => (true, r)
    | '+' :: r => (false, r)
    | _ => (false, s1)
  let ds := s2.takeWhile isDigitCh
  let rest := s2.dropWhile isDigitCh
  if ds.isEmpty || !(rest.dropWhile isSpaceCh).isEmpty then .error .valueError
  else .ok (if neg then -(digitsToNat ds : ℤ) else (digitsToNat ds : ℤ))

/-- Python `int(x)` on a JSON value: `ValueError` on a non-numeric string,
`TypeError` on `None`/lists/dicts; floats truncate toward zero. -/
def pyInt : JVal → Except PyErr ℤ
  | .jbool b => .ok (if b then 1 else 0)
  | .jint n => .ok n
  | .jfloat q => .ok (pyTrunc q)
  | .jstr s => pyIntOfStr s
  | .jnull => .error .typeError
  | .jarr _ => .error .typeError
  | .jobj _ => .error .typeError

/-- Parse a Python `float()` string argument: optional whitespace, optional
sign, digits with optional fraction or leading dot, optional exponent. -/
def pyFloatOfStr (s : Str) : Except PyErr ℚ :=
  let s1 := s.dropWhile isSpaceCh
  let (neg, s2) : Bool × Str := match s1 with
    | '-' :: r => (true, r)
    | '+' :: r => (false, r)
    | _ => (false, s1)
  let intDs := s2.takeWhile isDigitCh
  let afterInt := s2.dropWhile isDigitCh
  let (fracDs, afterFrac) : Str × Str := match afterInt with
    | '.' :: r => (r.takeWhile isDigitCh, r.dropWhile isDigitCh)
    | _ => ([], afterInt)
  if intDs.isEmpty && fracDs.isEmpty then .error .valueError
  else
    let (hasExp, expNeg, expDs, rest) : Bool × Bool × Str × Str :=
      match afterFrac with
      | e :: r =>
        if e = 'e' || e = 'E' then
          match r with
          | '-' :: r' => (true, true, r'.takeWhile isDigitCh, r'.dropWhile isDigitCh)
          | '+' :: r' => (true, false, r'.takeWhile isDigitCh, r'.dropWhile isDigitCh)
          | _ => (true, false, r.takeWhile isDigitCh, r.dropWhile isDigitCh)
        else (false, false, [], afterFrac)
      | [] => (false, false, [], afterFrac)
    if hasExp && expDs.isEmpty then .error .valueError
    else if !(rest.dropWhile isSpaceCh).isEmpty then .error .valueError
    else
      let mag : ℚ :=
        ((digitsToNat intDs : ℚ) + (digitsToNat fracDs : ℚ) / 10 ^ fracDs.length) *
          (if hasExp then
            (if expNeg then (10 : ℚ) ^ (-(digitsToNat expDs : ℤ))
             else (10 : ℚ) ^ (digitsToNat expDs : ℤ))
           else 1)
      .ok (roundToDouble (if neg then -mag else mag))

/-- Python `float(x)` on a JSON value. -/
def pyFloat : JVal → Except PyErr ℚ
  | .jbool b => .ok (if b then 1 else 0)
  | .jint n => .ok (roundToDouble n)
  | .jfloat q => .ok q
  | .jstr s => pyFloatOfStr s
  | .jnull => .error .typeError
  | .jarr _ => .error .typeError
  | .jobj _ => .error .typeError

/-- `ExpenseExtraction` (models/expense.py:30-47). -/
structure ExpenseExtraction where
  item_name : Str
  amount : ℤ
  category : ExpenseCategory
  emotion : EmotionLabel
  sentiment_score : ℚ
  ai_confidence : ℚ
  deriving DecidableEq, Repr

/-- Pydantic construction of an `ExpenseExtraction`: the item name must be a
string (pydantic v2 does not coerce), `amount ≥ 0`, the sentiment in
`[-1, 1]`, the confidence in `[0, 1]`; a `ValidationError` (a `ValueError`
subclass) otherwise. -/
def mkExpenseExtraction (nameV : JVal) (amount : ℤ) (cat : ExpenseCategory)
    (emo : EmotionLabel) (sent conf : ℚ) : Except PyErr ExpenseExtraction :=
  match nameV with
  | .jstr n =>
    if 0 ≤ amount ∧ -1 ≤ sent ∧ sent ≤ 1 ∧ 0 ≤ conf ∧ conf ≤ 1
    then .ok ⟨n, amount, cat, emo, sent, conf⟩
    else .error .valueError
  | _ => .error .valueError

/-! ### The extraction loop (`extract_multiple_expenses`, accountant.py:318-411) -/

/-- Process one candidate of the parsed list (accountant.py:370-391).
`ok none` is the `continue` for a falsy amount; any raised exception
(`AttributeError` from `.get`/`.lower()` on a wrongly-typed value,
`ValueError`/`TypeError` from `int()`/`float()`, `ValidationError` from the
model constructor) aborts the whole loop. -/
def processOne (de : EmotionLabel) (ds : ℚ) (item : JVal) :
    Except PyErr (Option ExpenseExtraction) :=
  match item with
  | .jobj kvs =>
    if truthyJ (jGetD kvs (sOf ("amount")) (.jint 0)) = false then .ok none
    else
      match jGetD kvs (sOf ("emotion")) (.jstr (sOf ("Netral"))) with
      | .jstr es =>
        match (if map_emotion es = EmotionLabel.NETRAL ∧ de ≠ EmotionLabel.NETRAL
               then Except.ok (de, ds)
               else
                 match pyFloat (jGetD kvs (sOf ("sentiment_score")) (.jfloat 0)) with
                 | .ok sv => Except.ok (map_emotion es, sv)
                 | .error e => Except.error e) with
        | .error e => .error e
        | .ok (finalEmotion, finalSentiment) =>
          match pyInt (jGetD kvs (sOf ("amount")) (.jint 0)) with
          | .error e => .error e
          | .ok amtI =>
            match jGetD kvs (sOf ("category")) (.jstr (sOf ("Lainnya"))) with
            | .jstr cs =>
              match pyFloat (jGetD kvs (sOf ("ai_confidence")) (.jfloat (7 / 10))) with
              | .error e => .error e
              | .ok conf =>
                match mkExpenseExtraction
                    (jGetD kvs (sOf ("item_name")) (.jstr (sOf ("Unknown Item"))))
                    amtI (map_category cs) finalEmotion finalSentiment conf with
                | .error e => .error e
                | .ok ex => .ok (some ex)
            | _ => .error .attributeError
      | _ => .error .attributeError
  | _ => .error .attributeError

/-- The `for item in parsed_items` loop: skipped items vanish, the first
raised exception aborts. -/
def processItems (de : EmotionLabel) (ds : ℚ) :
    List JVal → Except PyErr (List ExpenseExtraction)
  | [] => .ok []
  | item :: rest =>
    match processOne de ds item with
    | .error e => .error e
    | .ok none => processItems de ds rest
    | .ok (some x) => (processItems de ds rest).map (x :: ·)

/-- Outcome of the remote chat-completion call: either it raises, or it
returns a response text. -/
inductive RemoteOutcome where
  | failure
  | success (response : Str)

/-- Body of the `try` block after the remote call returned `resp`
(accountant.py:350-393): parse, fall back on an empty parse, otherwise run
the validation loop with the detected message emotion. -/
def extractTryBody (user_message resp : Str) : Except PyErr (List ExpenseExtraction) :=
  if (parse_ai_response resp).isEmpty then
    match extract_amount_fallback user_message with
    | some a =>
      if a ≠ 0 then
        .ok [⟨sOf ("Pengeluaran"), a, .LAINNYA, .NETRAL, 0, 4 / 10⟩]
      else .ok []
    | none => .ok []
  else
    processItems (detect_emotion_from_text user_message).1
      (detect_emotion_from_text user_message).2 (parse_ai_response resp)

/-- The `except Exception` handler (accountant.py:395-411): wrap the fallback
amount, when truthy, into a single low-confidence extraction labelled with
the detected emotion. -/
def fallbackHandler (user_message : Str) : List ExpenseExtraction :=
  match extract_amount_fallback user_message with
  | some a =>
    if a ≠ 0 then
      [⟨sOf ("Item tidak terdeteksi"), a, .LAINNYA,
        (detect_emotion_from_text user_message).1,
        (detect_emotion_from_text user_message).2, 3 / 10⟩]
    else []
  | none => []

/-- `extract_multiple_expenses`: gate first, then the `try` block around the
remote call (whose sent payload `normalize_amount_string user_message` does
not influence the result once the outcome is given), with the catch-all
fallback handler. -/
def extract_multiple_expenses (user_message : Str) (outcome : RemoteOutcome) :
    List ExpenseExtraction :=
  if has_expense_pattern user_message = false then []
  else
    match outcome with
    | .failure => fallbackHandler user_message
    | .success resp =>
      match extractTryBody user_message resp with
      | .ok l => l
      | .error _ => fallbackHandler user_message

/-! ### Receipt parser (`parse_receipt_response`, scanner.py:217-276) -/

/-- `ReceiptItem` (scanner.py:29-33). -/
structure ReceiptItem where
  name : Str
  quantity : ℤ
  price : ℤ
  deriving DecidableEq, Repr

/-- `ReceiptData` (scanner.py:36-42). -/
structure ReceiptData where
  store_name : Str
  total_amount : ℤ
  date : Option Str
  items : List ReceiptItem
  raw_text : Option Str
  deriving DecidableEq, Repr

/-- Brace-depth scan of scanner.py:237-246: collect characters from a `{`
until the counter returns to zero; `none` when it never does (in which case
the code slices an empty string, whose JSON parse then fails). -/
def braceGo (depth : Nat) : Str → Option Str
  | [] => none
  | c :: rest =>
    if c = '{' then (braceGo (depth + 1) rest).map (c :: ·)
    else if c = '}' then
      if depth = 1 then some [c]
      else (braceGo (depth - 1) rest).map (c :: ·)
    else (braceGo depth rest).map (c :: ·)

/-- Attempted coercion of one `items` entry that is a dict
(scanner.py:255-262): quantity defaults to 1, price to 0, both through
`int()`; the name must be a string (pydantic).  `none` means the
`ValueError`/`TypeError` was caught and the item skipped. -/
def receiptItemCoerce (kvs : List (Str × JVal)) : Option ReceiptItem :=
  match pyInt (jGetD kvs (sOf ("quantity")) (.jint 1)),
        pyInt (jGetD kvs (sOf ("price")) (.jint 0)),
        jGetD kvs (sOf ("name")) (.jstr (sOf ("Unknown"))) with
  | .ok q, .ok p, .jstr n => some ⟨n, q, p⟩
  | _, _, _ => none

/-- One step of the receipt items loop.  A non-dict entry raises
`AttributeError` at `item.get`, which the per-item `except (ValueError,
TypeError)` does not catch. -/
def receiptItemStep : JVal → Except PyErr (Option ReceiptItem)
  | .jobj kvs => .ok (receiptItemCoerce kvs)
  | _ => .error .attributeError

/-- The `for item in data.get("items", [])` loop. -/
def receiptItems : List JVal → Except PyErr (List ReceiptItem)
  | [] => .ok []
  | j :: rest =>
    match receiptItemStep j with
    | .error e => .error e
    | .ok none => receiptItems rest
    | .ok (some it) => (receiptItems rest).map (it :: ·)

/-- The values Python iterates over for `data.get("items", [])`: a list
yields its elements; strings and dicts yield strings (characters / keys);
other values raise `TypeError`. -/
def iterJ : JVal → Except PyErr (List JVal)
  | .jarr l => .ok l
  | .jstr s => .ok (s.map (fun c => .jstr [c]))
  | .jobj kvs => .ok (kvs.map (fun kv => .jstr kv.1))
  | _ => .error .typeError

/-- The attempted item coercion on an arbitrary iterated value: dict entries
go through `receiptItemCoerce`, anything else cannot yield an item. -/
def receiptItemOfJ : JVal → Option ReceiptItem
  | .jobj kvs => receiptItemCoerce kvs
  | _ => none

/-- The two-stage JSON recovery of `parse_receipt_response` (scanner.py:
224-250): direct parse of the stripped response, else brace-depth scan from
the first `{`. -/
def receiptJsonData (response_text : Str) : Except PyErr JVal :=
  match jsonLoads (pyStrip response_text) with
  | some v => .ok v
  | none =>
    match splitFirst '{' response_text with
    | none => .error .valueError
    | some (_, after) =>
      match braceGo 0 ('{' :: after) with
      | some seg =>
        match jsonLoads seg with
        | some v => .ok v
        | none => .error .valueError
      | none => .error .valueError

/-- Body of the outer `try` of `parse_receipt_response`.  Any error is caught
by the catch-all handler, which returns a default `ReceiptData` carrying only
the raw response (the "no `{` found" early return yields that same value). -/
def parseReceiptBody (response_text : Str) : Except PyErr ReceiptData :=
  match receiptJsonData response_text with
  | .error e => .error e
  | .ok data =>
    match data with
    | .jobj kvs =>
      match iterJ (jGetD kvs (sOf ("items")) (.jarr [])) with
      | .error e => .error e
      | .ok itemsList =>
        match receiptItems itemsList with
        | .error e => .error e
        | .ok items =>
          match jGetD kvs (sOf ("store_name")) (.jstr (sOf ("Unknown Store"))) with
          | .jstr storeName =>
            match pyInt (jGetD kvs (sOf ("total_amount")) (.jint 0)) with
            | .error e => .error e
            | .ok total =>
              match jGetD kvs (sOf ("date")) .jnull with
              | .jnull => .ok ⟨storeName, total, none, items, some response_text⟩
              | .jstr d => .ok ⟨storeName, total, some d, items, some response_text⟩
              | _ => .error .valueError
          | _ => .error .valueError
    | _ => .error .attributeError

/-- `parse_receipt_response`: the parsed receipt, or on any parse error a
default `ReceiptData` with only the raw text set. -/
def parse_receipt_response (response_text : Str) : ReceiptData :=
  match parseReceiptBody response_text with
  | .ok rd => rd
  | .error _ => ⟨sOf ("Unknown Store"), 0, none, [], some response_text⟩

/-! ### Helper lemmas: emotion detector -/

lemma detect_of_anger {msg : Str} (h : anyWordIn angerWords (lowerStr msg) = true) :
    detect_emotion_from_text msg = (.MARAH, -(6 / 10)) := by
  simp [detect_emotion_from_text, h]

lemma detect_of_sad {msg : Str} (h1 : anyWordIn angerWords (lowerStr msg) = false)
    (h2 : anyWordIn sadWords (lowerStr msg) = true) :
    detect_emotion_from_text msg = (.SEDIH, -(5 / 10)) := by
  simp [detect_emotion_from_text, h1, h2]

lemma detect_of_stress {msg : Str} (h1 : anyWordIn angerWords (lowerStr msg) = false)
    (h2 : anyWordIn sadWords (lowerStr msg) = false)
    (h3 : anyWordIn stressWords (lowerStr msg) = true) :
    detect_emotion_from_text msg = (.STRESS, -(4 / 10)) := by
  simp [detect_emotion_from_text, h1, h2, h3]

lemma detect_of_happy {msg : Str} (h1 : anyWordIn angerWords (lowerStr msg) = false)
    (h2 : anyWordIn sadWords (lowerStr msg) = false)
    (h3 : anyWordIn stressWords (lowerStr msg) = false)
    (h4 : anyWordIn happyWords (lowerStr msg) = true) :
    detect_emotion_from_text msg = (.SENANG, 7 / 10) := by
  simp [detect_emotion_from_text, h1, h2, h3, h4]

lemma detect_of_hunger {msg : Str} (h1 : anyWordIn angerWords (lowerStr msg) = false)
    (h2 : anyWordIn sadWords (lowerStr msg) = false)
    (h3 : anyWordIn stressWords (lowerStr msg) = false)
    (h4 : anyWordIn happyWords (lowerStr msg) = false)
    (h5 : anyWordIn hungerWords (lowerStr msg) = true) :
    detect_emotion_from_text msg = (.LAPAR, 1 / 10) := by
  simp [detect_emotion_from_text, h1, h2, h3, h4, h5]

lemma detect_of_none {msg : Str} (h1 : anyWordIn angerWords (lowerStr msg) = false)
    (h2 : anyWordIn sadWords (lowerStr msg) = false)
    (h3 : anyWordIn stressWords (lowerStr msg) = false)
    (h4 : anyWordIn happyWords (lowerStr msg) = false)
    (h5 : anyWordIn hungerWords (lowerStr msg) = false) :
    detect_emotion_from_text msg = (.NETRAL, 0) := by
  simp [detect_emotion_from_text, h1, h2, h3, h4, h5]

lemma anyWordIn_of_mem {w : Str} {words : List Str} {s : Str}
    (hw : w ∈ words) (hc : containsSub w s = true) : anyWordIn words s = true :=
  List.any_eq_true.mpr ⟨w, hw, hc⟩

/-! ### Claim theorems: the gate and the emotion detector -/

/-- Claim C5: the expense-likelihood gate rejects every message whose trimmed
text is under 5 characters; for longer messages that match a casual pattern
it accepts exactly when a monetary indicator is present, and for messages
matching no casual pattern it also accepts exactly when a monetary indicator
is present. -/
theorem C5_gate_policy :
    (∀ msg : Str, (pyStrip (lowerStr msg)).length < 5 → has_expense_pattern msg = false) ∧
    (∀ msg : Str, 5 ≤ (pyStrip (lowerStr msg)).length →
      casualMatch (pyStrip (lowerStr msg)) = true →
      (has_expense_pattern msg = true ↔
        has_money_indicator (pyStrip (lowerStr msg)) = true)) ∧
    (∀ msg : Str, 5 ≤ (pyStrip (lowerStr msg)).length →
      casualMatch (pyStrip (lowerStr msg)) = false →
      (has_expense_pattern msg = true ↔
        has_money_indicator (pyStrip (lowerStr msg)) = true)) := by
  refine ⟨fun msg h => ?_, fun msg h hc => ?_, fun msg h hc => ?_⟩
  · simp [has_expense_pattern, h]
  · simp [has_expense_pattern, hc, Nat.not_lt.mpr h]
  · simp [has_expense_pattern, hc, Nat.not_lt.mpr h]

/-- Witness for C5 on concrete messages: a short greeting is rejected, a
greeting carrying "50k" is accepted, and a plain expense message is accepted. -/
theorem C5_gate_policy_witness :
    has_expense_pattern (sOf ("hai")) = false ∧
    (has_expense_pattern (sOf ("halo 50k")) = true ↔
      has_money_indicator (pyStrip (lowerStr (sOf ("halo 50k")))) = true) ∧
    (has_expense_pattern (sOf ("beli ayam 12000")) = true ↔
      has_money_indicator (pyStrip (lowerStr (sOf ("beli ayam 12000")))) = true) :=
  ⟨C5_gate_policy.1 (sOf ("hai")) (by decide),
   C5_gate_policy.2.1 (sOf ("halo 50k")) (by decide) (by decide),
   C5_gate_policy.2.2 (sOf ("beli ayam 12000")) (by decide) (by decide)⟩

/-- Claim C6: the emotion detector returns exactly one (emotion, sentiment)
pair, checking the vocabularies in the fixed priority order anger `(-0.6)`,
sadness `(-0.5)`, stress `(-0.4)`, happiness `(+0.7)`, hunger `(+0.1)`; the
first matching category wins and later ones are not consulted; with no match
the result is neutral `(0.0)`. -/
theorem C6_emotion_priority (msg : Str) :
    (anyWordIn angerWords (lowerStr msg) = true →
      detect_emotion_from_text msg = (.MARAH, -(6 / 10))) ∧
    (anyWordIn angerWords (lowerStr msg) = false →
      anyWordIn sadWords (lowerStr msg) = true →
      detect_emotion_from_text msg = (.SEDIH, -(5 / 10))) ∧
    (anyWordIn angerWords (lowerStr msg) = false →
      anyWordIn sadWords (lowerStr msg) = false →
      anyWordIn stressWords (lowerStr msg) = true →
      detect_emotion_from_text msg = (.STRESS, -(4 / 10))) ∧
    (anyWordIn angerWords (lowerStr msg) = false →
      anyWordIn sadWords (lowerStr msg) = false →
      anyWordIn stressWords (lowerStr msg) = false →
      anyWordIn happyWords (lowerStr msg) = true →
      detect_emotion_from_text msg = (.SENANG, 7 / 10)) ∧
    (anyWordIn angerWords (lowerStr msg) = false →
      anyWordIn sadWords (lowerStr msg) = false →
      anyWordIn stressWords (lowerStr msg) = false →
      anyWordIn happyWords (lowerStr msg) = false →
      anyWordIn hungerWords (lowerStr msg) = true →
      detect_emotion_from_text msg = (.LAPAR, 1 / 10)) ∧
    (anyWordIn angerWords (lowerStr msg) = false →
      anyWordIn sadWords (lowerStr msg) = false →
      anyWordIn stressWords (lowerStr msg) = false →
      anyWordIn happyWords (lowerStr msg) = false →
      anyWordIn hungerWords (lowerStr msg) = false →
      detect_emotion_from_text msg = (.NETRAL, 0)) :=
  ⟨detect_of_anger, detect_of_sad, detect_of_stress, detect_of_happy,
   detect_of_hunger, detect_of_none⟩

/-- Witness for C6 at concrete messages exercising first-match priority:
"kesel banget sedih" contains both anger and sadness words but anger wins;
"xyz" matches nothing. -/
theorem C6_emotion_priority_witness :
    detect_emotion_from_text (sOf ("kesel banget sedih")) = (.MARAH, -(6 / 10)) ∧
    detect_emotion_from_text (sOf ("sedih banget")) = (.SEDIH, -(5 / 10)) ∧
    detect_emotion_from_text (sOf ("xyz")) = (.NETRAL, 0) :=
  ⟨(C6_emotion_priority (sOf ("kesel banget sedih"))).1 (by decide),
   (C6_emotion_priority (sOf ("sedih banget"))).2.1 (by decide) (by decide),
   (C6_emotion_priority (sOf ("xyz"))).2.2.2.2.2 (by decide) (by decide) (by decide)
     (by decide) (by decide)⟩

/-- Claim C10: emotion keyword matching is raw substring containment, not
word-boundary matching: any message whose lowercased text contains an anger
keyword anywhere, even inside an unrelated word, is classified Angry `(-0.6)`,
and likewise for the other vocabularies in priority order.  The message
"subtotal 50000" is Angry purely because "subtotal" embeds the keyword "bt". -/
theorem C10_substring_matching :
    (∀ msg w, w ∈ angerWords → containsSub w (lowerStr msg) = true →
      detect_emotion_from_text msg = (.MARAH, -(6 / 10))) ∧
    (∀ msg w, anyWordIn angerWords (lowerStr msg) = false →
      w ∈ sadWords → containsSub w (lowerStr msg) = true →
      detect_emotion_from_text msg = (.SEDIH, -(5 / 10))) ∧
    (∀ msg w, anyWordIn angerWords (lowerStr msg) = false →
      anyWordIn sadWords (lowerStr msg) = false →
      w ∈ stressWords → containsSub w (lowerStr msg) = true →
      detect_emotion_from_text msg = (.STRESS, -(4 / 10))) ∧
    (∀ msg w, anyWordIn angerWords (lowerStr msg) = false →
      anyWordIn sadWords (lowerStr msg) = false →
      anyWordIn stressWords (lowerStr msg) = false →
      w ∈ happyWords → containsSub w (lowerStr msg) = true →
      detect_emotion_from_text msg = (.SENANG, 7 / 10)) ∧
    (∀ msg w, anyWordIn angerWords (lowerStr msg) = false →
      anyWordIn sadWords (lowerStr msg) = false →
      anyWordIn stressWords (lowerStr msg) = false →
      anyWordIn happyWords (lowerStr msg) = false →
      w ∈ hungerWords → containsSub w (lowerStr msg) = true →
      detect_emotion_from_text msg = (.LAPAR, 1 / 10)) ∧
    detect_emotion_from_text (sOf ("subtotal 50000")) = (.MARAH, -(6 / 10)) := by
  refine ⟨fun msg w hw hc => detect_of_anger (anyWordIn_of_mem hw hc),
    fun msg w h1 hw hc => detect_of_sad h1 (anyWordIn_of_mem hw hc),
    fun msg w h1 h2 hw hc => detect_of_stress h1 h2 (anyWordIn_of_mem hw hc),
    fun msg w h1 h2 h3 hw hc => detect_of_happy h1 h2 h3 (anyWordIn_of_mem hw hc),
    fun msg w h1 h2 h3 h4 hw hc => detect_of_hunger h1 h2 h3 h4 (anyWordIn_of_mem hw hc),
    by decide⟩

/-- Witness for C10: the keyword "bt" embedded inside "subtotal" triggers the
anger classification. -/
theorem C10_substring_matching_witness :
    detect_emotion_from_text (sOf ("subtotal 50000")) = (.MARAH, -(6 / 10)) :=
  C10_substring_matching.1 (sOf ("subtotal 50000")) (sOf ("bt")) (by decide) (by decide)

/-! ### Helper lemmas: the amount normalizer -/

lemma charToNat_ofNat {m : Nat} (h : m < 55296) : (Char.ofNat m).toNat = m := by
  unfold Char.ofNat
  rw [dif_pos (Or.inl h)]
  simp only [Char.ofNatAux, Char.toNat, UInt32.toNat, UInt32.ofNatCore,
    BitVec.toNat_ofNatLt]

lemma lowerCh_digit {c : Char} (h : isDigitCh c = true) : lowerCh c = c := by
  simp only [isDigitCh, Bool.and_eq_true, decide_eq_true_eq] at h
  simp only [lowerCh, Bool.and_eq_true, decide_eq_true_eq]
  rw [if_neg]
  omega

lemma lowerCh_idem (c : Char) : lowerCh (lowerCh c) = lowerCh c := by
  by_cases h : 65 ≤ c.toNat ∧ c.toNat ≤ 90
  · have h1 : lowerCh c = Char.ofNat (c.toNat + 32) := by
      simp only [lowerCh, Bool.and_eq_true, decide_eq_true_eq]
      rw [if_pos h]
    have h2 : (Char.ofNat (c.toNat + 32)).toNat = c.toNat + 32 :=
      charToNat_ofNat (by omega)
    rw [h1]
    simp only [lowerCh, Bool.and_eq_true, decide_eq_true_eq, h2]
    rw [if_neg]
    omega
  · have h1 : lowerCh c = c := by
      simp only [lowerCh, Bool.and_eq_true, decide_eq_true_eq]
      rw [if_neg h]
    rw [h1, h1]

lemma lowerStr_idem (s : Str) : lowerStr (lowerStr s) = lowerStr s := by
  simp only [lowerStr, List.map_map]
  exact List.map_congr_left (fun c _ => lowerCh_idem c)

lemma lowerStr_digits_append {ds : Str} (hd : ∀ c ∈ ds, isDigitCh c = true) :
    lowerStr (ds ++ [ 'k' ]) = ds ++ [ 'k' ] := by
  simp only [lowerStr, List.map_append]
  have h1 : ds.map lowerCh = ds := by
    conv_rhs => rw [← List.map_id ds]
    exact List.map_congr_left (fun c hc => lowerCh_digit (hd c hc))
  have h2 : [ 'k' ].map lowerCh = [ 'k' ] := by decide
  rw [h1, h2]

lemma takeWhile_append_all {p : Char → Bool} {ds l : Str} (h : ∀ c ∈ ds, p c = true) :
    (ds ++ l).takeWhile p = ds ++ l.takeWhile p := by
  induction ds with
  | nil => rfl
  | cons c rest ih =>
    have hc : p c = true := h c (List.mem_cons_self c rest)
    simp only [List.cons_append, List.takeWhile_cons, hc, if_true]
    rw [ih (fun x hx => h x (List.mem_cons_of_mem c hx))]

lemma dropWhile_append_all {p : Char → Bool} {ds l : Str} (h : ∀ c ∈ ds, p c = true) :
    (ds ++ l).dropWhile p = l.dropWhile p := by
  induction ds with
  | nil => rfl
  | cons c rest ih =>
    have hc : p c = true := h c (List.mem_cons_self c rest)
    simp only [List.cons_append, List.dropWhile_cons, hc, if_true]
    exact ih (fun x hx => h x (List.mem_cons_of_mem c hx))

lemma digitCh_digit {n : Nat} (h : n < 10) : isDigitCh (digitCh n) = true := by
  interval_cases n <;> decide

lemma natReprGo_digits : ∀ fuel n, ∀ c ∈ natReprGo fuel n, isDigitCh c = true := by
  intro fuel
  induction fuel with
  | zero => intro n c hc; simp [natReprGo] at hc
  | succ fuel ih =>
    intro n c hc
    by_cases h : n < 10
    · simp only [natReprGo, if_pos h, List.mem_singleton] at hc
      exact hc ▸ digitCh_digit h
    · simp only [natReprGo, if_neg h, List.mem_append, List.mem_singleton] at hc
      rcases hc with hc | hc
      · exact ih _ c hc
      · exact hc ▸ digitCh_digit (Nat.mod_lt n (by omega))

lemma natRepr_digits (n : Nat) : ∀ c ∈ natRepr n, isDigitCh c = true :=
  natReprGo_digits (n + 1) n

lemma dropLit_self (s : Str) : dropLit s s = some [] := by
  induction s with
  | nil => rfl
  | cons c rest ih => simp [dropLit, ih]

lemma subSuffixGo_nil (suf : Str) (mult fuel : Nat) : subSuffixGo suf mult fuel [] = [] := by
  cases fuel <;> rfl

/-- A substitution pass whose suffix is nonempty leaves an all-digit string
unchanged (there is no suffix literal after the digit run). -/
lemma subSuffixGo_digits (suf : Str) (hsuf : suf ≠ []) (mult : Nat) :
    ∀ fuel s, (∀ c ∈ s, isDigitCh c = true) → subSuffixGo suf mult fuel s = s := by
  obtain ⟨a, ss, rfl⟩ : ∃ a ss, suf = a :: ss := by
    cases suf with
    | nil => exact absurd rfl hsuf
    | cons a ss => exact ⟨a, ss, rfl⟩
  intro fuel
  induction fuel with
  | zero => intro s _; rfl
  | succ fuel ih =>
    intro s h
    cases s with
    | nil => rfl
    | cons c rest =>
      have hc : isDigitCh c = true := h c (List.mem_cons_self c rest)
      have hrest : ∀ x ∈ rest, isDigitCh x = true :=
        fun x hx => h x (List.mem_cons_of_mem c hx)
      have hdrop : (c :: rest).dropWhile isDigitCh = [] :=
        List.dropWhile_eq_nil_iff.mpr h
      simp only [subSuffixGo, hc, if_true, hdrop]
      simp only [List.dropWhile_nil, dropLit]
      rw [ih rest hrest]

/-- The decimal-million pass likewise leaves an all-digit string unchanged
(no separator after the digit run). -/
lemma subDecMillionGo_digits (suf : Str) :
    ∀ fuel s, (∀ c ∈ s, isDigitCh c = true) → subDecMillionGo suf fuel s = s := by
  intro fuel
  induction fuel with
  | zero => intro s _; rfl
  | succ fuel ih =>
    intro s h
    cases s with
    | nil => rfl
    | cons c rest =>
      have hc : isDigitCh c = true := h c (List.mem_cons_self c rest)
      have hrest : ∀ x ∈ rest, isDigitCh x = true :=
        fun x hx => h x (List.mem_cons_of_mem c hx)
      have hdrop : (c :: rest).dropWhile isDigitCh = [] :=
        List.dropWhile_eq_nil_iff.mpr h
      simp only [subDecMillionGo, hc, if_true, hdrop]
      rw [ih rest hrest]

/-- One `(\d+)\s*k\b` pass on `digits ++ "k"` rewrites the whole string to
`str(int(digits) * mult)`. -/
lemma subSuffixGo_digits_k {mult : Nat} (ds : Str) (hne : ds ≠ [])
    (hd : ∀ c ∈ ds, isDigitCh c = true) (fuel : Nat) :
    subSuffixGo [ 'k' ] mult (fuel + 1) (ds ++ [ 'k' ]) =
      natRepr (digitsToNat ds * mult) := by
  cases ds with
  | nil => exact absurd rfl hne
  | cons c rest =>
    have hc : isDigitCh c = true := hd c (List.mem_cons_self c rest)
    have htake : ((c :: rest) ++ [ 'k' ]).takeWhile isDigitCh = c :: rest := by
      rw [takeWhile_append_all hd,
        show List.takeWhile isDigitCh [ 'k' ] = [] from rfl, List.append_nil]
    have hdrop : ((c :: rest) ++ [ 'k' ]).dropWhile isDigitCh = [ 'k' ] :=
      dropWhile_append_all hd
    rw [List.cons_append] at htake hdrop ⊢
    have h1 : List.dropWhile isSpaceCh [ 'k' ] = [ 'k' ] := rfl
    have h2 : dropLit [ 'k' ] [ 'k' ] = some [] := rfl
    simp only [subSuffixGo, hc, if_true, htake, hdrop, h1, h2, boundaryOk,
      subSuffixGo_nil, List.append_nil]

/-- The normalizer on `digits ++ "k"`: the k-pass rewrites the whole string
and the remaining passes leave the resulting digit string unchanged. -/
lemma normalize_k_rule (ds : Str) (hne : ds ≠ []) (hd : ∀ c ∈ ds, isDigitCh c = true) :
    normalize_amount_string (ds ++ [ 'k' ]) = natRepr (digitsToNat ds * 1000) := by
  have hlen : (ds ++ [ 'k' ]).length = ds.length + 1 := by simp
  have hdig := natRepr_digits (digitsToNat ds * 1000)
  simp only [normalize_amount_string, subSuffix, subDecMillion]
  rw [lowerStr_digits_append hd, hlen, subSuffixGo_digits_k ds hne hd ds.length,
    subSuffixGo_digits (sOf ("rb")) (by decide) 1000 _ _ hdig,
    subSuffixGo_digits (sOf ("ribu")) (by decide) 1000 _ _ hdig,
    subDecMillionGo_digits (sOf ("jt")) _ _ hdig,
    subDecMillionGo_digits (sOf ("juta")) _ _ hdig,
    subSuffixGo_digits (sOf ("jt")) (by decide) 1000000 _ _ hdig,
    subSuffixGo_digits (sOf ("juta")) (by decide) 1000000 _ _ hdig]

/-! ### Claim theorems: the amount normalizer -/

/-- Claim C4, counterexample: the normalizer lowercases the whole input, so a
character outside any shorthand occurrence is not left unchanged — on
"A 25k" the code produces "a 25000", not "A 25000". -/
theorem C4_normalizer_counterexample :
    normalize_amount_string (sOf ("A 25k")) = sOf ("a 25000") ∧
    normalize_amount_string (sOf ("A 25k")) ≠ sOf ("A 25000") := by
  exact ⟨by decide, by decide⟩

set_option maxRecDepth 40000 in
/-- Claim C4 as amended: the normalizer lowercases the input and then applies
the shorthand rewrites as successive left-to-right non-overlapping
substitution passes; "25k" → "25000", "2.5jt" → "2500000", "2jt" → "2000000",
any digit string followed by "k" becomes its value times 1000, and the map is
insensitive to the case of its input. -/
theorem C4_normalizer_rules :
    normalize_amount_string (sOf ("25k")) = sOf ("25000") ∧
    normalize_amount_string (sOf ("2.5jt")) = sOf ("2500000") ∧
    normalize_amount_string (sOf ("2jt")) = sOf ("2000000") ∧
    (∀ ds : Str, ds ≠ [] → (∀ c ∈ ds, isDigitCh c = true) →
      normalize_amount_string (ds ++ [ 'k' ]) = natRepr (digitsToNat ds * 1000)) ∧
    (∀ s : Str, normalize_amount_string (lowerStr s) = normalize_amount_string s) := by
  refine ⟨by decide, by decide, by decide, normalize_k_rule, fun s => ?_⟩
  simp only [normalize_amount_string, lowerStr_idem]

/-- Witness for C4: the digit-string rule applied at "25", and the
case-insensitivity applied at "A 25k". -/
theorem C4_normalizer_rules_witness :
    normalize_amount_string (sOf ("25") ++ [ 'k' ]) =
      natRepr (digitsToNat (sOf ("25")) * 1000) ∧
    normalize_amount_string (lowerStr (sOf ("A 25k"))) =
      normalize_amount_string (sOf ("A 25k")) :=
  ⟨C4_normalizer_rules.2.2.2.1 (sOf ("25")) (by decide) (by decide),
   C4_normalizer_rules.2.2.2.2 (sOf ("A 25k"))⟩

/-! ### Helper lemmas: the response parser -/

lemma splitFirst_not_mem_append {c : Char} {a b : Str} (h : c ∉ a) :
    splitFirst c (a ++ c :: b) = some (a, b) := by
  induction a with
  | nil => simp [splitFirst]
  | cons x xs ih =>
    have hx : ¬(x = c) := fun e => h (e ▸ List.mem_cons_self x xs)
    simp [splitFirst, hx, ih (fun hm => h (List.mem_cons_of_mem x hm))]

lemma pyStrip_prose_array (p mid : Str) :
    pyStrip (p ++ '[' :: (mid ++ [ ']' ])) =
      p.dropWhile isSpaceCh ++ '[' :: (mid ++ [ ']' ]) := by
  unfold pyStrip
  have h1 : List.dropWhile isSpaceCh (p ++ '[' :: (mid ++ [ ']' ])) =
      p.dropWhile isSpaceCh ++ '[' :: (mid ++ [ ']' ]) := by
    rw [List.dropWhile_append]
    split
    · next he =>
      rw [List.isEmpty_iff.mp he]
      simp [List.dropWhile_cons, isSpaceCh]
    · rfl
  rw [h1]
  have hr : (p.dropWhile isSpaceCh ++ '[' :: (mid ++ [ ']' ])).reverse =
      ']' :: (mid.reverse ++ '[' :: (p.dropWhile isSpaceCh).reverse) := by
    simp
  rw [hr, List.dropWhile_cons, if_neg (by decide), ← hr, List.reverse_reverse]

lemma arrayMatch_prose {p : Str} (mid : Str) (h : '[' ∉ p) :
    arrayMatch (p ++ '[' :: (mid ++ [ ']' ])) = some ('[' :: (mid ++ [ ']' ])) := by
  unfold arrayMatch
  rw [splitFirst_not_mem_append h]
  have h2 : (mid ++ [ ']' ]).reverse = ']' :: mid.reverse := by simp
  simp [h2, splitFirst]

/-! ### Claim theorems: the response parser -/

/-- Claim C7, counterexample: "[1, 2]" is a syntactically valid JSON array
substring of "[1, 2] [3, 4]", yet the parser returns the empty list, because
its greedy span from the first `[` to the last `]` fails to parse and the
object fallback finds no braces. -/
theorem C7_parser_counterexample :
    parse_ai_response (sOf ("[1, 2] [3, 4]")) = [] ∧
    jsonLoads (sOf ("[1, 2]")) = some (.jarr [.jint 1, .jint 2]) ∧
    containsSub (sOf ("[1, 2]")) (sOf ("[1, 2] [3, 4]")) = true :=
  ⟨rfl, rfl, by decide⟩

/-- Claim C7 as amended: the parser takes the greedy span from the first `[`
to the last `]` of the trimmed response; when the response is prose (with no
`[`) followed by a JSON array, that span is exactly the array, so its items
are returned and the prose is ignored. -/
theorem C7_parser_prose_array :
    ∀ (p mid : Str) (l : List JVal), '[' ∉ p →
      jsonLoads ('[' :: (mid ++ [ ']' ])) = some (.jarr l) →
      parse_ai_response (p ++ '[' :: (mid ++ [ ']' ])) = l := by
  intro p mid l hp hj
  unfold parse_ai_response
  rw [pyStrip_prose_array]
  rw [arrayMatch_prose mid (fun hm => hp ((List.dropWhile_sublist _).subset hm))]
  simp [hj]

/-- Witness for C7: prose followed by a one-object array parses to exactly
that object. -/
theorem C7_parser_prose_array_witness :
    parse_ai_response
        (sOf ("Berikut hasilnya: ") ++ '[' :: (sOf ("\x7b\"amount\": 5\x7d") ++ [ ']' ])) =
      [.jobj [(sOf ("amount"), .jint 5)]] :=
  C7_parser_prose_array (sOf ("Berikut hasilnya: ")) (sOf ("\x7b\"amount\": 5\x7d"))
    [.jobj [(sOf ("amount"), .jint 5)]] (by decide) (by rfl)

/-! ### Helper lemmas: the extraction loop -/

lemma exceptBind_eq_ok {ε α β : Type} {e : Except ε α} {f : α → Except ε β} {b : β}
    (h : (e >>= f) = .ok b) : ∃ a, e = .ok a ∧ f a = .ok b := by
  cases e with
  | ok a => exact ⟨a, rfl, h⟩
  | error err => simp [Bind.bind, Except.bind] at h

lemma processOne_falsy {de : EmotionLabel} {ds : ℚ} {kvs : List (Str × JVal)}
    (h : truthyJ (jGetD kvs (sOf ("amount")) (.jint 0)) = false) :
    processOne de ds (.jobj kvs) = .ok none := by
  simp [processOne, h]

lemma processItems_cons_skip {de : EmotionLabel} {ds : ℚ} {item : JVal}
    {rest : List JVal} (h : processOne de ds item = .ok none) :
    processItems de ds (item :: rest) = processItems de ds rest := by
  simp [processItems, h]

lemma processItems_cons_error {de : EmotionLabel} {ds : ℚ} {item : JVal}
    {rest : List JVal} {e : PyErr} (h : processOne de ds item = .error e) :
    processItems de ds (item :: rest) = .error e := by
  simp [processItems, h]

lemma mkExpenseExtraction_ok_amount {nameV : JVal} {amount : ℤ}
    {cat : ExpenseCategory} {emo : EmotionLabel} {sent conf : ℚ} {x : ExpenseExtraction}
    (h : mkExpenseExtraction nameV amount cat emo sent conf = .ok x) :
    0 ≤ x.amount := by
  cases nameV <;> simp only [mkExpenseExtraction] at h <;> try exact absurd h (by simp)
  next n =>
    by_cases hc : 0 ≤ amount ∧ -1 ≤ sent ∧ sent ≤ 1 ∧ 0 ≤ conf ∧ conf ≤ 1
    · rw [if_pos hc] at h
      cases h
      exact hc.1
    · rw [if_neg hc] at h
      exact absurd h (by simp)

lemma processOne_ok_some_amount {de : EmotionLabel} {ds : ℚ} {item : JVal}
    {x : ExpenseExtraction} (h : processOne de ds item = .ok (some x)) :
    0 ≤ x.amount := by
  cases item with
  | jobj kvs =>
    by_cases ht : truthyJ (jGetD kvs (sOf ("amount")) (.jint 0)) = false
    · rw [processOne_falsy ht] at h
      exact absurd h (by simp)
    · simp only [processOne, if_neg ht] at h
      iterate 8 (all_goals try split at h)
      all_goals try cases h
      rename_i ex hmk
      exact mkExpenseExtraction_ok_amount hmk
  | jnull => exact absurd h (by simp [processOne])
  | jbool b => exact absurd h (by simp [processOne])
  | jint n => exact absurd h (by simp [processOne])
  | jfloat q => exact absurd h (by simp [processOne])
  | jstr s => exact absurd h (by simp [processOne])
  | jarr l => exact absurd h (by simp [processOne])

lemma processItems_ok_amount {de : EmotionLabel} {ds : ℚ} :
    ∀ {l : List JVal} {out : List ExpenseExtraction},
      processItems de ds l = .ok out → ∀ e ∈ out, 0 ≤ e.amount := by
  intro l
  induction l with
  | nil =>
    intro out h e he
    cases h
    cases he
  | cons item rest ih =>
    intro out h e he
    simp only [processItems] at h
    split at h
    · cases h
    · exact ih h e he
    · next xv hone =>
      cases hr : processItems de ds rest with
      | error err => rw [hr] at h; cases h
      | ok out' =>
        rw [hr] at h
        simp only [Except.map] at h
        cases h
        rcases List.mem_cons.mp he with rfl | hmem
        · exact processOne_ok_some_amount hone
        · exact ih hr e hmem

lemma pyTrunc_nonneg {q : ℚ} (h : 0 ≤ q) : 0 ≤ pyTrunc q := by
  unfold pyTrunc
  rw [if_pos h]
  exact Int.floor_nonneg.mpr h

lemma rtdScale_pos (q : ℚ) : 0 < rtdScale q :=
  zpow_pos (by norm_num) _

lemma rtdMantissa_nonneg {q : ℚ} (h : 0 ≤ q) : 0 ≤ rtdMantissa q := by
  have hm : 0 ≤ ⌊q / rtdScale q⌋ :=
    Int.floor_nonneg.mpr (div_nonneg h (rtdScale_pos q).le)
  unfold rtdMantissa
  dsimp only
  split
  · exact hm
  · split
    · omega
    · split <;> omega

lemma roundToDouble_nonneg {q : ℚ} (h : 0 ≤ q) : 0 ≤ roundToDouble q := by
  unfold roundToDouble
  split
  · exact le_refl 0
  · split
    · exact mul_nonneg (by exact_mod_cast rtdMantissa_nonneg h) (rtdScale_pos q).le
    · next h1 h2 =>
      exact absurd (lt_of_le_of_ne h (Ne.symm h1)) h2

lemma findSuffixAmt_nonneg {suf : Str} {mult : Nat} :
    ∀ {s : Str} {v : ℤ}, findSuffixAmt suf mult s = some v → 0 ≤ v := by
  intro s
  induction s with
  | nil => intro v h; cases h
  | cons c rest ih =>
    intro v h
    simp only [findSuffixAmt] at h
    split at h
    · split at h
      · split at h
        · cases h
          exact Int.natCast_nonneg _
        · exact ih h
      · exact ih h
    · exact ih h

lemma decMillionFallbackVal_nonneg (g1 g2 : Str) : 0 ≤ decMillionFallbackVal g1 g2 := by
  unfold decMillionFallbackVal
  refine pyTrunc_nonneg (roundToDouble_nonneg ?_)
  refine mul_nonneg (roundToDouble_nonneg ?_) (by norm_num)
  have h1 : (0 : ℚ) ≤ (digitsToNat g1 : ℚ) := Nat.cast_nonneg _
  have h2 : (0 : ℚ) ≤ (digitsToNat g2 : ℚ) / 10 ^ g2.length :=
    div_nonneg (Nat.cast_nonneg _) (by positivity)
  linarith

lemma findDecMillion_nonneg :
    ∀ {s : Str} {v : ℤ}, findDecMillion s = some v → 0 ≤ v := by
  intro s
  induction s with
  | nil => intro v h; cases h
  | cons c rest ih =>
    intro v h
    simp only [findDecMillion] at h
    split at h
    · split at h
      · split at h
        · split at h
          · exact ih h
          · split at h
            · cases h
              exact decMillionFallbackVal_nonneg _ _
            · exact ih h
        · exact ih h
      · exact ih h
    · exact ih h

lemma find4Plus_nonneg :
    ∀ {s : Str} {v : ℤ}, find4Plus s = some v → 0 ≤ v := by
  intro s
  induction s with
  | nil => intro v h; cases h
  | cons c rest ih =>
    intro v h
    simp only [find4Plus] at h
    split at h
    · split at h
      · cases h
        exact Int.natCast_nonneg _
      · exact ih h
    · exact ih h

lemma extract_amount_fallback_nonneg {s : Str} {a : ℤ}
    (h : extract_amount_fallback s = some a) : 0 ≤ a := by
  unfold extract_amount_fallback at h
  dsimp only at h
  split at h
  · cases h; exact findSuffixAmt_nonneg (by assumption)
  · split at h
    · cases h; exact findSuffixAmt_nonneg (by assumption)
    · split at h
      · cases h; exact findSuffixAmt_nonneg (by assumption)
      · split at h
        · cases h; exact findSuffixAmt_nonneg (by assumption)
        · split at h
          · cases h; exact findSuffixAmt_nonneg (by assumption)
          · split at h
            · cases h; exact findDecMillion_nonneg (by assumption)
            · exact find4Plus_nonneg h

lemma fallbackHandler_mem_amount {msg : Str} {e : ExpenseExtraction}
    (he : e ∈ fallbackHandler msg) : 0 < e.amount := by
  unfold fallbackHandler at he
  split at he
  · next a hf =>
    split at he
    · next ha =>
      rcases List.mem_singleton.mp he with rfl
      have h0 := extract_amount_fallback_nonneg hf
      show (0 : ℤ) < a
      omega
    · cases he
  · cases he

lemma fallbackHandler_length (msg : Str) : (fallbackHandler msg).length ≤ 1 := by
  unfold fallbackHandler
  split
  · split <;> simp
  · simp

lemma extractTryBody_ok_amount {msg resp : Str} {l : List ExpenseExtraction}
    (h : extractTryBody msg resp = .ok l) : ∀ e ∈ l, 0 ≤ e.amount := by
  unfold extractTryBody at h
  split at h
  · split at h
    · next a hf =>
      split at h
      · cases h
        intro e he
        rcases List.mem_singleton.mp he with rfl
        show (0 : ℤ) ≤ a
        exact extract_amount_fallback_nonneg hf
      · cases h
        intro e he
        cases he
    · cases h
      intro e he
      cases he
  · exact processItems_ok_amount h

lemma extract_failure_eq {msg : Str} (hg : has_expense_pattern msg = true) :
    extract_multiple_expenses msg .failure = fallbackHandler msg := by
  simp [extract_multiple_expenses, hg]

lemma extract_error_eq {msg resp : Str} {e : PyErr}
    (hg : has_expense_pattern msg = true) (hb : extractTryBody msg resp = .error e) :
    extract_multiple_expenses msg (.success resp) = fallbackHandler msg := by
  simp [extract_multiple_expenses, hg, hb]

lemma extract_mem_amount_nonneg {msg : Str} {oc : RemoteOutcome}
    {e : ExpenseExtraction} (he : e ∈ extract_multiple_expenses msg oc) :
    0 ≤ e.amount := by
  unfold extract_multiple_expenses at he
  split at he
  · cases he
  · cases oc with
    | failure =>
      dsimp only at he
      exact (fallbackHandler_mem_amount he).le
    | success resp =>
      dsimp only at he
      rcases hb : extractTryBody msg resp with err | l
      · rw [hb] at he
        exact (fallbackHandler_mem_amount he).le
      · rw [hb] at he
        exact extractTryBody_ok_amount hb e he

lemma fallbackHandler_some {msg : Str} {a : ℤ}
    (hf : extract_amount_fallback msg = some a) (ha : ¬a = 0) :
    fallbackHandler msg =
      [⟨sOf ("Item tidak terdeteksi"), a, .LAINNYA,
        (detect_emotion_from_text msg).1, (detect_emotion_from_text msg).2, 3 / 10⟩] := by
  unfold fallbackHandler
  rw [hf]
  dsimp only
  rw [if_pos ha]

lemma extract_empty_parse {msg resp : Str} {a : ℤ}
    (hg : has_expense_pattern msg = true)
    (hp : (parse_ai_response resp).isEmpty = true)
    (hf : extract_amount_fallback msg = some a) (ha : ¬a = 0) :
    extract_multiple_expenses msg (.success resp) =
      [⟨sOf ("Pengeluaran"), a, .LAINNYA, .NETRAL, 0, 4 / 10⟩] := by
  simp [extract_multiple_expenses, extractTryBody, hg, hp, hf, ha]

/-! ### Claim theorems: the extraction loop and its error handling -/

/-- Claim C1, counterexample: in a two-candidate batch where candidate "A"
has the non-numeric amount "abc" and candidate "B" is fully valid, the failed
`int()` coercion raises and the whole batch is replaced by the fallback
extraction — valid candidate "B" does not appear in the result. -/
theorem C1_batch_abort_counterexample :
    parse_ai_response
        (sOf ("[\x7b\"item_name\":\"A\",\"amount\":\"abc\"\x7d,\x7b\"item_name\":\"B\",\"amount\":5000\x7d]")) =
      [.jobj [(sOf ("item_name"), .jstr (sOf ("A"))), (sOf ("amount"), .jstr (sOf ("abc")))],
       .jobj [(sOf ("item_name"), .jstr (sOf ("B"))), (sOf ("amount"), .jint 5000)]] ∧
    processOne .NETRAL 0
        (.jobj [(sOf ("item_name"), .jstr (sOf ("B"))), (sOf ("amount"), .jint 5000)]) =
      .ok (some ⟨sOf ("B"), 5000, .LAINNYA, .NETRAL, 0, 7 / 10⟩) ∧
    extract_multiple_expenses (sOf ("beli ayam 12000"))
        (.success (sOf ("[\x7b\"item_name\":\"A\",\"amount\":\"abc\"\x7d,\x7b\"item_name\":\"B\",\"amount\":5000\x7d]"))) =
      [⟨sOf ("Item tidak terdeteksi"), 12000, .LAINNYA, .NETRAL, 0, 3 / 10⟩] ∧
    ¬(⟨sOf ("B"), 5000, .LAINNYA, .NETRAL, 0, 7 / 10⟩ : ExpenseExtraction) ∈
        extract_multiple_expenses (sOf ("beli ayam 12000"))
          (.success (sOf ("[\x7b\"item_name\":\"A\",\"amount\":\"abc\"\x7d,\x7b\"item_name\":\"B\",\"amount\":5000\x7d]"))) :=
  ⟨rfl, rfl, by decide, by decide⟩

/-- Claim C1 as amended: a candidate whose amount is absent or falsy is
skipped while the rest of the batch proceeds, but a candidate whose numeric
coercion raises aborts the whole batch, which is then routed to the fallback
handler; the candidate with amount "abc" raises `ValueError`. -/
theorem C1_skip_vs_abort :
    (∀ (de : EmotionLabel) (ds : ℚ) (kvs : List (Str × JVal)) (rest : List JVal),
      truthyJ (jGetD kvs (sOf ("amount")) (.jint 0)) = false →
      processItems de ds (.jobj kvs :: rest) = processItems de ds rest) ∧
    (∀ (de : EmotionLabel) (ds : ℚ) (item : JVal) (rest : List JVal) (e : PyErr),
      processOne de ds item = .error e →
      processItems de ds (item :: rest) = .error e) ∧
    (∀ (msg resp : Str) (e : PyErr), has_expense_pattern msg = true →
      extractTryBody msg resp = .error e →
      extract_multiple_expenses msg (.success resp) = fallbackHandler msg) ∧
    processOne .NETRAL 0
        (.jobj [(sOf ("item_name"), .jstr (sOf ("A"))), (sOf ("amount"), .jstr (sOf ("abc")))]) =
      .error .valueError :=
  ⟨fun _ _ _ _ h => processItems_cons_skip (processOne_falsy h),
   fun _ _ _ _ _ h => processItems_cons_error h,
   fun _ _ _ hg hb => extract_error_eq hg hb,
   rfl⟩

/-- Witness for C1: a falsy-amount candidate is skipped while a later valid
candidate is kept; a bad-coercion candidate aborts; the abort routes the
concrete message to the fallback handler. -/
theorem C1_skip_vs_abort_witness :
    processItems .NETRAL 0
        [.jobj [(sOf ("amount"), .jint 0)], .jobj [(sOf ("amount"), .jint 7000)]] =
      processItems .NETRAL 0 [.jobj [(sOf ("amount"), .jint 7000)]] ∧
    processItems .NETRAL 0 [.jobj [(sOf ("amount"), .jstr (sOf ("abc")))], .jobj []] =
      .error .valueError ∧
    extract_multiple_expenses (sOf ("beli ayam 12000"))
        (.success (sOf ("[\x7b\"amount\":\"abc\"\x7d]"))) =
      fallbackHandler (sOf ("beli ayam 12000")) :=
  ⟨C1_skip_vs_abort.1 .NETRAL 0 [(sOf ("amount"), .jint 0)] [.jobj [(sOf ("amount"), .jint 7000)]]
     (by decide),
   C1_skip_vs_abort.2.1 .NETRAL 0 (.jobj [(sOf ("amount"), .jstr (sOf ("abc")))]) [.jobj []]
     .valueError rfl,
   C1_skip_vs_abort.2.2.1 (sOf ("beli ayam 12000")) (sOf ("[\x7b\"amount\":\"abc\"\x7d]"))
     .valueError (by decide) rfl⟩

/-- Claim C2, counterexample: when the remote call succeeds but its response
parses to no candidates, the single wrapped extraction is hard-coded Netral
with item name "Pengeluaran" — it does not carry the emotion detector's
output, which is Angry for this message. -/
theorem C2_empty_parse_counterexample :
    extract_multiple_expenses (sOf ("abis beli ayam 12000 anjing"))
        (.success (sOf ("tidak ada transaksi"))) =
      [⟨sOf ("Pengeluaran"), 12000, .LAINNYA, .NETRAL, 0, 4 / 10⟩] ∧
    detect_emotion_from_text (sOf ("abis beli ayam 12000 anjing")) = (.MARAH, -(6 / 10)) ∧
    EmotionLabel.NETRAL ≠ EmotionLabel.MARAH :=
  ⟨by decide, by decide, by decide⟩

/-- Claim C2 as amended: on a remote-call failure the fallback extraction is
labelled with the emotion detector's output, confidence 0.3 and item name
"Item tidak terdeteksi"; on an empty parse it is Netral with confidence 0.4
and item name "Pengeluaran"; for the failing call on
"abis beli ayam 12000 anjing" the single extraction has amount 12000, emotion
Angry and confidence 0.3 ≤ 0.4. -/
theorem C2_fallback_labelling :
    (∀ (msg : Str) (a : ℤ), has_expense_pattern msg = true →
      extract_amount_fallback msg = some a → ¬a = 0 →
      extract_multiple_expenses msg .failure =
        [⟨sOf ("Item tidak terdeteksi"), a, .LAINNYA,
          (detect_emotion_from_text msg).1, (detect_emotion_from_text msg).2, 3 / 10⟩]) ∧
    (∀ (msg resp : Str) (a : ℤ), has_expense_pattern msg = true →
      (parse_ai_response resp).isEmpty = true →
      extract_amount_fallback msg = some a → ¬a = 0 →
      extract_multiple_expenses msg (.success resp) =
        [⟨sOf ("Pengeluaran"), a, .LAINNYA, .NETRAL, 0, 4 / 10⟩]) ∧
    extract_multiple_expenses (sOf ("abis beli ayam 12000 anjing")) .failure =
      [⟨sOf ("Item tidak terdeteksi"), 12000, .LAINNYA, .MARAH, -(6 / 10), 3 / 10⟩] ∧
    (3 : ℚ) / 10 ≤ 4 / 10 :=
  ⟨fun msg a hg hf ha => by rw [extract_failure_eq hg, fallbackHandler_some hf ha],
   fun _ _ _ hg hp hf ha => extract_empty_parse hg hp hf ha,
   by decide,
   by norm_num⟩

/-- Witness for C2: both fallback branches applied at the concrete message
"abis beli ayam 12000 anjing". -/
theorem C2_fallback_labelling_witness :
    extract_multiple_expenses (sOf ("abis beli ayam 12000 anjing")) .failure =
      [⟨sOf ("Item tidak terdeteksi"), 12000, .LAINNYA,
        (detect_emotion_from_text (sOf ("abis beli ayam 12000 anjing"))).1,
        (detect_emotion_from_text (sOf ("abis beli ayam 12000 anjing"))).2, 3 / 10⟩] ∧
    extract_multiple_expenses (sOf ("abis beli ayam 12000 anjing"))
        (.success (sOf ("tidak ada transaksi"))) =
      [⟨sOf ("Pengeluaran"), 12000, .LAINNYA, .NETRAL, 0, 4 / 10⟩] :=
  ⟨C2_fallback_labelling.1 (sOf ("abis beli ayam 12000 anjing")) 12000
     (by decide) (by decide) (by decide),
   C2_fallback_labelling.2.1 (sOf ("abis beli ayam 12000 anjing"))
     (sOf ("tidak ada transaksi")) 12000 (by decide) (by decide) (by decide) (by decide)⟩

/-- Claim C3, counterexample: a candidate whose amount is the truthy string
"0" passes the falsiness check, coerces to integer 0, and is returned with
amount 0 — the returned list is not all strictly positive. -/
theorem C3_zero_amount_counterexample :
    extract_multiple_expenses (sOf ("beli 25k"))
        (.success (sOf ("[\x7b\"item_name\":\"X\",\"amount\":\"0\"\x7d]"))) =
      [⟨sOf ("X"), 0, .LAINNYA, .NETRAL, 0, 7 / 10⟩] ∧
    (⟨sOf ("X"), 0, .LAINNYA, .NETRAL, 0, 7 / 10⟩ : ExpenseExtraction).amount = 0 :=
  ⟨by decide, rfl⟩

/-- Claim C3 as amended: every extraction returned by the chat path has
amount ≥ 0 (negative amounts fail validation and abort to the fallback);
candidates whose amount is absent or the number 0 are excluded; and the
fallback path only ever wraps a strictly positive amount. -/
theorem C3_amount_invariant :
    (∀ (msg : Str) (oc : RemoteOutcome) (e : ExpenseExtraction),
      e ∈ extract_multiple_expenses msg oc → 0 ≤ e.amount) ∧
    (∀ (de : EmotionLabel) (ds : ℚ) (kvs : List (Str × JVal)) (rest : List JVal),
      (jGet kvs (sOf ("amount")) = none ∨ jGet kvs (sOf ("amount")) = some (.jint 0)) →
      processItems de ds (.jobj kvs :: rest) = processItems de ds rest) ∧
    (∀ (msg : Str) (e : ExpenseExtraction), e ∈ fallbackHandler msg → 0 < e.amount) := by
  refine ⟨fun msg oc e he => extract_mem_amount_nonneg he,
    fun de ds kvs rest hd => ?_, fun msg e he => fallbackHandler_mem_amount he⟩
  have hfalsy : truthyJ (jGetD kvs (sOf ("amount")) (.jint 0)) = false := by
    rcases hd with hnone | hzero
    · simp [jGetD, hnone, truthyJ]
    · simp [jGetD, hzero, truthyJ]
  exact processItems_cons_skip (processOne_falsy hfalsy)

/-- Witness for C3: the zero-string extraction has a nonnegative amount, an
absent-amount candidate is skipped, and the concrete fallback extraction is
strictly positive. -/
theorem C3_amount_invariant_witness :
    (0 : ℤ) ≤ (⟨sOf ("X"), 0, .LAINNYA, .NETRAL, 0, 7 / 10⟩ : ExpenseExtraction).amount ∧
    processItems .NETRAL 0 [.jobj [(sOf ("item_name"), .jstr (sOf ("Y")))]] =
      processItems .NETRAL 0 [] ∧
    (0 : ℤ) <
      (⟨sOf ("Item tidak terdeteksi"), 12000, .LAINNYA, .MARAH, -(6 / 10), 3 / 10⟩ :
        ExpenseExtraction).amount :=
  ⟨C3_amount_invariant.1 (sOf ("beli 25k"))
     (.success (sOf ("[\x7b\"item_name\":\"X\",\"amount\":\"0\"\x7d]")))
     ⟨sOf ("X"), 0, .LAINNYA, .NETRAL, 0, 7 / 10⟩ (by decide),
   C3_amount_invariant.2.1 .NETRAL 0 [(sOf ("item_name"), .jstr (sOf ("Y")))] []
     (Or.inl rfl),
   C3_amount_invariant.2.2 (sOf ("abis beli ayam 12000 anjing"))
     ⟨sOf ("Item tidak terdeteksi"), 12000, .LAINNYA, .MARAH, -(6 / 10), 3 / 10⟩ (by decide)⟩

/-- Claim C8: for every message and every failing remote outcome the chat
entry point returns a plain list — the failure branch and any exception in
the body both land in the fallback handler (or the empty list when the gate
rejected), and that handler produces at most one extraction.  No exception
escapes. -/
theorem C8_no_exception_escape :
    (∀ msg : Str, extract_multiple_expenses msg .failure =
      (if has_expense_pattern msg = true then fallbackHandler msg else [])) ∧
    (∀ (msg resp : Str) (e : PyErr), extractTryBody msg resp = .error e →
      extract_multiple_expenses msg (.success resp) =
        (if has_expense_pattern msg = true then fallbackHandler msg else [])) ∧
    (∀ msg : Str, (fallbackHandler msg).length ≤ 1) := by
  refine ⟨fun msg => ?_, fun msg resp e hb => ?_, fallbackHandler_length⟩
  · by_cases hg : has_expense_pattern msg = true
    · rw [if_pos hg]
      exact extract_failure_eq hg
    · have hg' : has_expense_pattern msg = false := by
        cases h : has_expense_pattern msg
        · rfl
        · exact absurd h hg
      rw [if_neg hg]
      simp [extract_multiple_expenses, hg']
  · by_cases hg : has_expense_pattern msg = true
    · rw [if_pos hg]
      exact extract_error_eq hg hb
    · have hg' : has_expense_pattern msg = false := by
        cases h : has_expense_pattern msg
        · rfl
        · exact absurd h hg
      rw [if_neg hg]
      simp [extract_multiple_expenses, hg']

/-- Witness for C8: the gate-rejected message "hai" yields the empty list on
failure, and a body error on "beli ayam 12000" yields the fallback list. -/
theorem C8_no_exception_escape_witness :
    extract_multiple_expenses (sOf ("hai")) .failure =
      (if has_expense_pattern (sOf ("hai")) = true then fallbackHandler (sOf ("hai")) else []) ∧
    extract_multiple_expenses (sOf ("beli ayam 12000"))
        (.success (sOf ("[\x7b\"amount\":\"abc\"\x7d]"))) =
      (if has_expense_pattern (sOf ("beli ayam 12000")) = true
       then fallbackHandler (sOf ("beli ayam 12000")) else []) :=
  ⟨C8_no_exception_escape.1 (sOf ("hai")),
   C8_no_exception_escape.2.1 (sOf ("beli ayam 12000")) (sOf ("[\x7b\"amount\":\"abc\"\x7d]"))
     .valueError rfl⟩

/-! ### Helper lemmas and claim theorems: the receipt parser -/

lemma receiptItems_filterMap :
    ∀ {l : List JVal}, (∀ j ∈ l, ∃ k, j = JVal.jobj k) →
      receiptItems l = .ok (l.filterMap receiptItemOfJ) := by
  intro l
  induction l with
  | nil => intro _; rfl
  | cons j rest ih =>
    intro h
    obtain ⟨k, rfl⟩ := h j (List.mem_cons_self j rest)
    have hrest := fun x hx => h x (List.mem_cons_of_mem _ hx)
    simp only [receiptItems, receiptItemStep, List.filterMap_cons, receiptItemOfJ]
    cases hc : receiptItemCoerce k with
    | none => exact ih hrest
    | some it => rw [ih hrest]; rfl

lemma receiptItemCoerce_default_qty {kvs : List (Str × JVal)} {p : ℤ} {n : Str}
    (hq : jGet kvs (sOf ("quantity")) = none)
    (hp : pyInt (jGetD kvs (sOf ("price")) (.jint 0)) = .ok p)
    (hn : jGetD kvs (sOf ("name")) (.jstr (sOf ("Unknown"))) = .jstr n) :
    receiptItemCoerce kvs = some ⟨n, 1, p⟩ := by
  have h1 : jGetD kvs (sOf ("quantity")) (.jint 1) = .jint 1 := by
    simp [jGetD, hq]
  unfold receiptItemCoerce
  rw [h1, hp, hn]
  rfl

lemma parse_receipt_response_spec {resp : Str} {kvs : List (Str × JVal)}
    {itemsL : List JVal} {sn : Str} {ta : ℤ} {dateV : Option Str}
    (hjson : jsonLoads (pyStrip resp) = some (.jobj kvs))
    (hitems : jGetD kvs (sOf ("items")) (.jarr []) = .jarr itemsL)
    (hobj : ∀ j ∈ itemsL, ∃ k, j = JVal.jobj k)
    (hstore : jGetD kvs (sOf ("store_name")) (.jstr (sOf ("Unknown Store"))) = .jstr sn)
    (htotal : pyInt (jGetD kvs (sOf ("total_amount")) (.jint 0)) = .ok ta)
    (hdate : jGetD kvs (sOf ("date")) .jnull = .jnull ∧ dateV = none ∨
      ∃ d, jGetD kvs (sOf ("date")) .jnull = .jstr d ∧ dateV = some d) :
    parse_receipt_response resp =
      ⟨sn, ta, dateV, itemsL.filterMap receiptItemOfJ, some resp⟩ := by
  have hdata : receiptJsonData resp = .ok (.jobj kvs) := by
    unfold receiptJsonData
    rw [hjson]
  unfold parse_receipt_response parseReceiptBody
  rw [hdata]
  simp only [hitems, iterJ, receiptItems_filterMap hobj, hstore, htotal]
  rcases hdate with ⟨hd, rfl⟩ | ⟨d, hd, rfl⟩ <;> rw [hd]

/-- Claim C9: in the receipt parser an item's quantity defaults to 1 when
absent; an item whose quantity or price fails integer coercion is skipped
while remaining items and the receipt-level fields are still returned; and
the spec's example receipt yields total 15000 with one item of quantity 1. -/
theorem C9_receipt_parsing :
    (∀ l : List JVal, (∀ j ∈ l, ∃ k, j = JVal.jobj k) →
      receiptItems l = .ok (l.filterMap receiptItemOfJ)) ∧
    (∀ (kvs : List (Str × JVal)) (p : ℤ) (n : Str),
      jGet kvs (sOf ("quantity")) = none →
      pyInt (jGetD kvs (sOf ("price")) (.jint 0)) = .ok p →
      jGetD kvs (sOf ("name")) (.jstr (sOf ("Unknown"))) = .jstr n →
      receiptItemCoerce kvs = some ⟨n, 1, p⟩) ∧
    (∀ (resp : Str) (kvs : List (Str × JVal)) (itemsL : List JVal) (sn : Str)
        (ta : ℤ) (dateV : Option Str),
      jsonLoads (pyStrip resp) = some (.jobj kvs) →
      jGetD kvs (sOf ("items")) (.jarr []) = .jarr itemsL →
      (∀ j ∈ itemsL, ∃ k, j = JVal.jobj k) →
      jGetD kvs (sOf ("store_name")) (.jstr (sOf ("Unknown Store"))) = .jstr sn →
      pyInt (jGetD kvs (sOf ("total_amount")) (.jint 0)) = .ok ta →
      (jGetD kvs (sOf ("date")) .jnull = .jnull ∧ dateV = none ∨
        ∃ d, jGetD kvs (sOf ("date")) .jnull = .jstr d ∧ dateV = some d) →
      parse_receipt_response resp =
        ⟨sn, ta, dateV, itemsL.filterMap receiptItemOfJ, some resp⟩) :=
  ⟨fun _ h => receiptItems_filterMap h,
   fun _ _ _ hq hp hn => receiptItemCoerce_default_qty hq hp hn,
   fun _ _ _ _ _ _ hjson hitems hobj hstore htotal hdate =>
     parse_receipt_response_spec hjson hitems hobj hstore htotal hdate⟩

/-- Witness for C9 on the spec's example response: the parse succeeds with
total 15000 and a single "Kopi" line item whose quantity defaulted to 1, and
a malformed sibling item (non-numeric price) is skipped while "Kopi" and the
receipt fields survive. -/
theorem C9_receipt_parsing_witness :
    parse_receipt_response
        (sOf ("\x7b\"store_name\":\"Toko A\",\"total_amount\":15000,\"items\":[\x7b\"name\":\"Kopi\",\"price\":15000\x7d]\x7d")) =
      ⟨sOf ("Toko A"), 15000, none,
        ([JVal.jobj [(sOf ("name"), .jstr (sOf ("Kopi"))), (sOf ("price"), .jint 15000)]]).filterMap
          receiptItemOfJ,
        some (sOf ("\x7b\"store_name\":\"Toko A\",\"total_amount\":15000,\"items\":[\x7b\"name\":\"Kopi\",\"price\":15000\x7d]\x7d"))⟩ ∧
    receiptItemCoerce [(sOf ("name"), .jstr (sOf ("Kopi"))), (sOf ("price"), .jint 15000)] =
      some ⟨sOf ("Kopi"), 1, 15000⟩ ∧
    receiptItems
        [.jobj [(sOf ("name"), .jstr (sOf ("X"))), (sOf ("price"), .jstr (sOf ("abc")))],
         .jobj [(sOf ("name"), .jstr (sOf ("Kopi"))), (sOf ("price"), .jint 15000)]] =
      .ok ([.jobj [(sOf ("name"), .jstr (sOf ("X"))), (sOf ("price"), .jstr (sOf ("abc")))],
            .jobj [(sOf ("name"), .jstr (sOf ("Kopi"))), (sOf ("price"), .jint 15000)]].filterMap
        receiptItemOfJ) :=
  ⟨C9_receipt_parsing.2.2
     (sOf ("\x7b\"store_name\":\"Toko A\",\"total_amount\":15000,\"items\":[\x7b\"name\":\"Kopi\",\"price\":15000\x7d]\x7d"))
     [(sOf ("store_name"), .jstr (sOf ("Toko A"))), (sOf ("total_amount"), .jint 15000),
      (sOf ("items"),
        .jarr [.jobj [(sOf ("name"), .jstr (sOf ("Kopi"))), (sOf ("price"), .jint 15000)]])]
     [.jobj [(sOf ("name"), .jstr (sOf ("Kopi"))), (sOf ("price"), .jint 15000)]]
     (sOf ("Toko A")) 15000 none
     (by rfl) (by rfl)
     (by
       intro j hj
       rcases List.mem_singleton.mp hj with rfl
       exact ⟨_, rfl⟩)
     (by rfl) (by rfl) (Or.inl ⟨rfl, rfl⟩),
   C9_receipt_parsing.2.1 [(sOf ("name"), .jstr (sOf ("Kopi"))), (sOf ("price"), .jint 15000)]
     15000 (sOf ("Kopi")) rfl rfl rfl,
   C9_receipt_parsing.1
     [.jobj [(sOf ("name"), .jstr (sOf ("X"))), (sOf ("price"), .jstr (sOf ("abc")))],
      .jobj [(sOf ("name"), .jstr (sOf ("Kopi"))), (sOf ("price"), .jint 15000)]]
     (by
       intro j hj
       rcases List.mem_cons.mp hj with rfl | hj2
       · exact ⟨_, rfl⟩
       · rcases List.mem_singleton.mp hj2 with rfl
         exact ⟨_, rfl⟩)⟩
